import Mathlib

/-!
Shallow embedding of the publicdomain-app scheduling / publishing / outreach
backend (TypeScript, Vercel + Postgres) and proofs about its claims.

The database tables (authors, books, quotes, posts, replies, system_settings)
are modelled as lists of records inside a `DB` structure; each SQL statement of
the source is translated into a pure Lean function on `DB`.  External services
(the X API, Reddit API, the Bedrock language model) are oracles supplied
through environment records, so every pipeline is a pure state transformer.
Machine integers are modelled as `Nat`/`Int`; JSON numbers as a
mantissa/exponent pair; thrown JS exceptions as `Except`/`Option` error
values.
-/

/- ------------------------------------------------------------------
   String helpers (kernel-computable, over the underlying char lists)
   ------------------------------------------------------------------ -/

/-- Does `pat` occur as a contiguous sublist of `l`?  (Substring search.) -/
def charListHasInfix (pat : List Char) : List Char → Bool
  | [] => pat.isEmpty
  | c :: cs => pat.isPrefixOf (c :: cs) || charListHasInfix pat cs

/-- SQL `col LIKE '%pat%'` on a column value `s`: `pat` occurs as a substring. -/
def likeContains (s pat : String) : Bool :=
  charListHasInfix pat.data s.data

/-- Does the string contain the character `c`?  (JS `String.prototype.includes`.) -/
def strHasChar (s : String) (c : Char) : Bool :=
  s.data.contains c

/-- ASCII lower-casing of one character (enough for SQL `LOWER` on the data used). -/
def lowerChar (c : Char) : Char :=
  if 'A' ≤ c ∧ c ≤ 'Z' then Char.ofNat (c.toNat + 32) else c

/-- ASCII lower-casing of a string, modelling SQL `LOWER(...)`. -/
def lowerStr (s : String) : String :=
  String.mk (s.data.map lowerChar)

/-- JS `String.prototype.trim`: strip leading and trailing whitespace. -/
def trimStr (s : String) : String :=
  String.mk (((s.data.dropWhile Char.isWhitespace).reverse.dropWhile Char.isWhitespace).reverse)

/-- Decimal digit characters of a natural number, most significant first;
`fuel` bounds the number of divisions (any `fuel ≥ n` is enough). -/
def natDigitsAux : Nat → Nat → List Char
  | 0, n => [Char.ofNat (48 + n % 10)]
  | fuel + 1, n =>
    if n < 10 then [Char.ofNat (48 + n)]
    else natDigitsAux fuel (n / 10) ++ [Char.ofNat (48 + n % 10)]

/-- Decimal digit characters of a natural number, most significant first. -/
def natDigits (n : Nat) : List Char :=
  natDigitsAux n n

/-- Decimal string of a natural number (JS `Number.prototype.toString`). -/
def natToDecimalString (n : Nat) : String :=
  String.mk (natDigits n)

/-- Decimal string of an integer (JS `Number.prototype.toString`). -/
def intToDecimalString (i : Int) : String :=
  match i with
  | .ofNat n => natToDecimalString n
  | .negSucc n => "-" ++ natToDecimalString (n + 1)

/-- Accumulate the value of a leading run of decimal digits; stops at the first
non-digit.  `none` means no digit was seen yet. -/
def digitsPrefixVal : List Char → Option Nat → Option Nat
  | [], acc => acc
  | c :: cs, acc =>
    if c.isDigit then digitsPrefixVal cs (some ((acc.getD 0) * 10 + (c.toNat - 48)))
    else acc

/-- JS `parseInt(s, 10)`: after trimming, an optional sign followed by the longest
leading digit run; `none` models the `NaN` result when no digit is present. -/
def parseIntJS (s : String) : Option Int :=
  match (trimStr s).data with
  | '-' :: cs => (digitsPrefixVal cs none).map (fun n => -(n : Int))
  | '+' :: cs => (digitsPrefixVal cs none).map (fun n => (n : Int))
  | cs => (digitsPrefixVal cs none).map (fun n => (n : Int))

/-- Scan helper: does the list contain a run of at least 4 consecutive digits,
given that `run` digits are already pending? -/
def hasDigitRunAux : Nat → List Char → Bool
  | run, [] => 4 ≤ run
  | run, c :: cs =>
    if 4 ≤ run then true
    else if c.isDigit then hasDigitRunAux (run + 1) cs
    else hasDigitRunAux 0 cs

/-- The JS regex test `/\d{4,}/.test(s)`. -/
def hasFourConsecutiveDigits (s : String) : Bool :=
  hasDigitRunAux 0 s.data

/-- Stable insertion of `x` into a list sorted by the strict order `lt`:
`x` goes after every element it is not strictly before. -/
def insertSortedBy (lt : α → α → Bool) (x : α) : List α → List α
  | [] => [x]
  | y :: ys => if lt x y then x :: y :: ys else y :: insertSortedBy lt x ys

/-- Stable insertion sort by the strict order `lt`; elements that compare equal
keep their original relative order (like a JS stable `sort` / SQL `ORDER BY`). -/
def sortBy (lt : α → α → Bool) : List α → List α
  | [] => []
  | x :: xs => insertSortedBy lt x (sortBy lt xs)

/-- First element minimal under the strict order `lt`, scanning left to right
(`ORDER BY ... LIMIT 1` over a materialized row list). -/
def selectFirstMin (lt : α → α → Bool) (l : List α) : Option α :=
  l.foldl (fun acc e =>
    match acc with
    | none => some e
    | some m => if lt e m then some e else acc) none

/- ------------------------------------------------------------------
   Data model: rows of the content store
   ------------------------------------------------------------------ -/

/-- Row of the `authors` table. -/
structure Author where
  id : Nat
  name : String
deriving DecidableEq, Repr

/-- Row of the `books` table. -/
structure Book where
  id : Nat
  title : String
  cover : String
  link : String
  author_id : Nat
deriving DecidableEq, Repr

/-- Row of the `quotes` table. -/
structure Quote where
  id : Nat
  quote : String
  popularity : Int
  book_id : Nat
deriving DecidableEq, Repr

/-- Row of the `posts` table; `published_date` is a calendar-day number
(`DATE(published_date)` granularity, as used by all scheduling queries). -/
structure Post where
  id : Nat
  book_id : Option Nat
  quote_id : Option Nat
  text : String
  image_link : Option String
  platform : String
  status : String
  published_date : Nat
deriving DecidableEq, Repr

/-- Row of the `replies` table; `user_id` is the conflict key of the upsert.
`replied_at` is in seconds. -/
structure Reply where
  user_id : String
  username : String
  post_id : String
  post_url : String
  book_title : String
  replied_at : Nat
deriving DecidableEq, Repr

/-- The content store: all tables plus the serial counter for `posts.id`. -/
structure DB where
  authors : List Author
  books : List Book
  quotes : List Quote
  posts : List Post
  replies : List Reply
  settings : List (String × String)
  nextPostId : Nat
deriving DecidableEq, Repr

/-- `SELECT value FROM system_settings WHERE key = k`. -/
def getSystemSetting (db : DB) (key : String) : Option String :=
  (db.settings.find? (fun kv => kv.1 == key)).map (·.2)

/-- `INSERT ... ON CONFLICT (key) DO UPDATE SET value = EXCLUDED.value`. -/
def setSystemSetting (db : DB) (key value : String) : DB :=
  if db.settings.any (fun kv => kv.1 == key) then
    { db with settings := db.settings.map (fun kv => if kv.1 == key then (key, value) else kv) }
  else
    { db with settings := db.settings ++ [(key, value)] }

/- ------------------------------------------------------------------
   Content selection queries of the Scheduler
   ------------------------------------------------------------------ -/

/-- Quotes of a book, in table order (`q.book_id = b.id`). -/
def quotesOf (db : DB) (b : Book) : List Quote :=
  db.quotes.filter (fun q => q.book_id == b.id)

/-- `quote_post_count` of the `quote_post_counts` CTE: number of posts whose
`quote_id` is this quote.  Note: the source query has no platform filter here,
so posts of every platform are counted. -/
def quotePostCount (db : DB) (q : Quote) : Nat :=
  (db.posts.filter (fun p => p.quote_id == some q.id)).length

/-- `book_post_count` of the `book_quote_counts` CTE: `COUNT(p.id)` over
books LEFT JOIN quotes LEFT JOIN posts, i.e. the total number of posts over
all the book's quotes (again with no platform filter). -/
def bookPostCount (db : DB) (b : Book) : Nat :=
  ((quotesOf db b).map (quotePostCount db)).sum

/-- `MIN(qpc.quote_post_count)` of the `filtered_books` CTE (for a book that
has at least one quote). -/
def minQuotePostCount (db : DB) (b : Book) : Nat :=
  (((quotesOf db b).map (quotePostCount db)).min?).getD 0

/-- Output row shape of the quote-selection query (X and LinkedIn `schedulePost`). -/
structure QuoteSel where
  quote_id : Nat
  quote : String
  book_id : Nat
  book_title : String
  book_cover : String
  author_name : String
  popularity : Int
deriving DecidableEq, Repr

/-- A `final_quotes` row together with the two counts that the `ORDER BY` uses. -/
structure RankedQuote where
  sel : QuoteSel
  book_post_count : Nat
  quote_post_count : Nat
deriving DecidableEq, Repr

/-- Rows of the `final_quotes` CTE: for each book that joins an author and has
at least one quote, those of its quotes whose post count equals the book's
minimum quote-post count. -/
def finalQuotes (db : DB) : List RankedQuote :=
  db.books.flatMap (fun b =>
    match db.authors.find? (fun a => a.id == b.author_id) with
    | none => []
    | some a =>
      (quotesOf db b).filterMap (fun q =>
        if quotePostCount db q == minQuotePostCount db b then
          some { sel := { quote_id := q.id, quote := q.quote, book_id := b.id,
                          book_title := b.title, book_cover := b.cover,
                          author_name := a.name, popularity := q.popularity },
                 book_post_count := bookPostCount db b,
                 quote_post_count := quotePostCount db q }
        else none))

/-- The sort key of the quote-selection query:
`ORDER BY book_post_count ASC, quote_post_count ASC, popularity DESC`. -/
def rankLt (x y : RankedQuote) : Bool :=
  decide (x.book_post_count < y.book_post_count ∨
    (x.book_post_count = y.book_post_count ∧
      (x.quote_post_count < y.quote_post_count ∨
        (x.quote_post_count = y.quote_post_count ∧ y.sel.popularity < x.sel.popularity))))

/-- The single row returned by the X/LinkedIn quote-selection query
(`SELECT ... FROM final_quotes LIMIT 1` after the `ORDER BY`). -/
def selectQuoteToPost (db : DB) : Option QuoteSel :=
  (selectFirstMin rankLt (finalQuotes db)).map (·.sel)

/-- Output row shape of the book-selection query (Reddit and Facebook
`schedulePost`); `author_name` is "null" when the LEFT JOIN finds no author. -/
structure BookSel where
  book_id : Nat
  book_title : String
  book_cover : String
  author_name : String
deriving DecidableEq, Repr

/-- Reddit `schedulePost` step 2: `COUNT(p.book_id)` restricted to posts on the
`/r/FreeEBOOKS/` platform (via `LIKE '%/r/FreeEBOOKS/%'`). -/
def redditBookPostCount (db : DB) (b : Book) : Nat :=
  (db.posts.filter (fun p =>
    p.book_id == some b.id && likeContains p.platform "/r/FreeEBOOKS/")).length

/-- Turn a book row into the selection row shape (LEFT JOIN on authors). -/
def bookSelOf (db : DB) (b : Book) : BookSel :=
  { book_id := b.id, book_title := b.title, book_cover := b.cover,
    author_name := ((db.authors.find? (fun a => a.id == b.author_id)).map (·.name)).getD "null" }

/-- The single row returned by the Reddit book-selection query
(`ORDER BY post_count ASC LIMIT 1`). -/
def selectBookToPost (db : DB) : Option BookSel :=
  (selectFirstMin (fun x y => Nat.blt x.2 y.2)
    (db.books.map (fun b => (b, redditBookPostCount db b)))).map (fun x => bookSelOf db x.1)

/-- Facebook `schedulePost` step 2: like Reddit's but with `p.platform = 'Facebook'`. -/
def facebookBookPostCount (db : DB) (b : Book) : Nat :=
  (db.posts.filter (fun p => p.book_id == some b.id && p.platform == "Facebook")).length

/-- The single row returned by the Facebook book-selection query. -/
def selectBookToPostFacebook (db : DB) : Option BookSel :=
  (selectFirstMin (fun x y => Nat.blt x.2 y.2)
    (db.books.map (fun b => (b, facebookBookPostCount db b)))).map (fun x => bookSelOf db x.1)

/- ------------------------------------------------------------------
   schedulePost: shared control flow of all four platform clients
   ------------------------------------------------------------------ -/

/-- Column values of the `INSERT INTO posts ...` a client performs. -/
structure NewPostSpec where
  book_id : Option Nat
  quote_id : Option Nat
  text : String
  image_link : Option String
  platform : String
deriving DecidableEq, Repr

/-- Result of a `schedulePost` call: the rows it returns and the new store. -/
structure ScheduleResult where
  returnedRows : List Nat
  db : DB
deriving DecidableEq, Repr

/-- Step-1 guard of every `schedulePost`: is a post already scheduled for
tomorrow on this platform (platform column matched by `guardMatch`)? -/
def existsScheduledTomorrow (db : DB) (guardMatch : String → Bool) (today : Nat) : Bool :=
  db.posts.any (fun p =>
    p.status == "scheduled" && guardMatch p.platform && p.published_date == today + 1)

/-- Shared control flow of `schedulePost` (verbatim in all four clients):
guard, select, insert with status `scheduled` and date tomorrow, return the
inserted ids when the insert has `RETURNING id`. -/
def scheduleCore (guardMatch : String → Bool) (today : Nat) (db : DB)
    (item? : Option NewPostSpec) (returnIds : Bool) : ScheduleResult :=
  if existsScheduledTomorrow db guardMatch today then
    { returnedRows := [], db := db }
  else
    match item? with
    | none => { returnedRows := [], db := db }
    | some it =>
      let newPost : Post :=
        { id := db.nextPostId, book_id := it.book_id, quote_id := it.quote_id,
          text := it.text, image_link := it.image_link, platform := it.platform,
          status := "scheduled", published_date := today + 1 }
      { returnedRows := if returnIds then [db.nextPostId] else [],
        db := { db with posts := db.posts ++ [newPost], nextPostId := db.nextPostId + 1 } }

/-- Post text of the X scheduler: quote, book, author plus the hashtag suffix. -/
def xPostText (item : QuoteSel) : String :=
  "\"" ++ item.quote ++ "\" - " ++ item.book_title ++ " by " ++ item.author_name ++
    " #ebooks #mustread #booklovers #book #ReadersCommunity #bookrecommendations #kindlebooks #ClassicLitMonday #BookologyThursday"

/-- `XClient.schedulePost`: guard on `platform LIKE '%X%'`, quote selection,
insert platform `'X'` with `RETURNING id`. -/
def XClient.schedulePost (today : Nat) (db : DB) : ScheduleResult :=
  scheduleCore (fun pl => likeContains pl "X") today db
    ((selectQuoteToPost db).map (fun item =>
      { book_id := none, quote_id := some item.quote_id, text := xPostText item,
        image_link := some item.book_cover, platform := "X" }))
    true

/-- Post text of the LinkedIn scheduler (no hashtag suffix). -/
def linkedInPostText (item : QuoteSel) : String :=
  "\"" ++ item.quote ++ "\" - " ++ item.book_title ++ " by " ++ item.author_name

/-- `LinkedInClient.schedulePost`: guard on `platform LIKE '%LinkedIn%'`, quote
selection, insert platform `'LinkedIn'` with both `quote_id` and `book_id`. -/
def LinkedInClient.schedulePost (today : Nat) (db : DB) : ScheduleResult :=
  scheduleCore (fun pl => likeContains pl "LinkedIn") today db
    ((selectQuoteToPost db).map (fun item =>
      { book_id := some item.book_id, quote_id := some item.quote_id,
        text := linkedInPostText item,
        image_link := some item.book_cover, platform := "LinkedIn" }))
    true

/-- `RedditClient.schedulePost`: guard on `platform LIKE '%/r/%'`, book
selection, insert platform `'/r/FreeEBOOKS/'`; the insert has no `RETURNING`,
so the call returns no rows even when it inserts. -/
def RedditClient.schedulePost (today : Nat) (db : DB) : ScheduleResult :=
  scheduleCore (fun pl => likeContains pl "/r/") today db
    ((selectBookToPost db).map (fun item =>
      { book_id := some item.book_id, quote_id := none,
        text := item.book_title ++ " by " ++ item.author_name,
        image_link := some item.book_cover, platform := "/r/FreeEBOOKS/" }))
    false

/-- `FacebookClient.schedulePost`: guard on `platform = 'Facebook'`, book
selection, insert platform `'Facebook'` with no `RETURNING`. -/
def FacebookClient.schedulePost (today : Nat) (db : DB) : ScheduleResult :=
  scheduleCore (fun pl => pl == "Facebook") today db
    ((selectBookToPostFacebook db).map (fun item =>
      { book_id := some item.book_id, quote_id := none,
        text := item.book_title ++ " by " ++ item.author_name,
        image_link := some item.book_cover, platform := "Facebook" }))
    false

/- ------------------------------------------------------------------
   Publisher: fetch today's scheduled posts and publish them
   ------------------------------------------------------------------ -/

/-- `UPDATE posts SET status = 'published' WHERE id = postId`
(`BaseSocialMediaClient.updatePostStatus`). -/
def updatePostStatus (db : DB) (postId : Nat) : DB :=
  { db with posts := db.posts.map (fun p =>
      if p.id == postId then { p with status := "published" } else p) }

/-- Resolve `COALESCE(books_direct.link, books_via_quote.link)` for a post:
the direct book link if the post has a `book_id`, else the link of the book
owning the post's quote. -/
def coalesceBookLink (db : DB) (p : Post) : Option String :=
  match p.book_id.bind (fun bid => db.books.find? (fun b => b.id == bid)) with
  | some b => some b.link
  | none =>
    ((p.quote_id.bind (fun qid => db.quotes.find? (fun q => q.id == qid))).bind
      (fun q => db.books.find? (fun b => b.id == q.book_id))).map (·.link)

/-- `BaseSocialMediaClient.fetchScheduledPosts`: today's scheduled posts whose
platform column equals the client's platform tag, each joined with its
COALESCEd book link. -/
def fetchScheduledPostsBase (platform : String) (today : Nat) (db : DB) :
    List (Post × Option String) :=
  (db.posts.filter (fun p =>
    p.status == "scheduled" && p.platform == platform && p.published_date == today)).map
    (fun p => (p, coalesceBookLink db p))

/-- `XClient.fetchScheduledPosts` (the client's own override): matches the
platform column by `LIKE '%X%'` and selects no book link. -/
def XClient.fetchScheduledPosts (today : Nat) (db : DB) : List Post :=
  db.posts.filter (fun p =>
    p.status == "scheduled" && likeContains p.platform "X" && p.published_date == today)

/-- X publish loop body: post to Twitter (oracle `tweetOk`), mark published; a
failure is logged and re-thrown, which aborts the rest of the batch.  The
returned `Option String` is the propagated exception. -/
def XClient.publishLoop (tweetOk : Nat → Bool) (db : DB) :
    List Post → DB × Option String
  | [] => (db, none)
  | p :: rest =>
    if tweetOk p.id then
      XClient.publishLoop tweetOk (updatePostStatus db p.id) rest
    else
      (db, some ("Failed to publish post ID " ++ natToDecimalString p.id))

/-- `XClient.publishScheduledPosts`. -/
def XClient.publishScheduledPosts (tweetOk : Nat → Bool) (today : Nat) (db : DB) :
    DB × Option String :=
  XClient.publishLoop tweetOk db (XClient.fetchScheduledPosts today db)

/-- UTM query string appended by the Reddit publisher. -/
def redditPublishUtm : String :=
  "utm_source=reddit.com&utm_medium=referral&utm_campaign=FreeEBOOKS"

/-- Reddit publish loop body.  `submitLinkWithFlair` catches its own errors and
returns null, so a failed submission does not throw: the post is still marked
published.  The only throwing step in the loop is reading `book_link.includes`
when the joined link is SQL NULL (a JS `TypeError`), which is re-thrown and
aborts the batch.  Returns (store, ids actually submitted, propagated error). -/
def RedditClient.publishLoop (submitOk : Nat → Bool) (db : DB) :
    List (Post × Option String) → DB × List Nat × Option String
  | [] => (db, [], none)
  | (p, blink) :: rest =>
    match blink with
    | none => (db, [], some "TypeError: cannot read includes of null")
    | some link =>
      let _expandedLink :=
        link ++ (if strHasChar link '?' then "&" else "?") ++ redditPublishUtm
      let submitted := if submitOk p.id then [p.id] else []
      match RedditClient.publishLoop submitOk (updatePostStatus db p.id) rest with
      | (db2, subs, err) => (db2, submitted ++ subs, err)

/-- `RedditClient.publishScheduledPosts`. -/
def RedditClient.publishScheduledPosts (submitOk : Nat → Bool) (today : Nat) (db : DB) :
    DB × List Nat × Option String :=
  RedditClient.publishLoop submitOk db (fetchScheduledPostsBase "/r/FreeEBOOKS/" today db)

/-- LinkedIn publish loop body: publish (oracle `publishOk`), mark published,
then maybe comment with the book link (oracle `commentOk`); any per-post error
is caught and logged and the loop continues with the remaining posts — the
LinkedIn client does not re-throw inside its loop.  Returns (store, error log). -/
def LinkedInClient.publishLoop (publishOk commentOk : Nat → Bool) (db : DB) :
    List (Post × Option String) → DB × List String
  | [] => (db, [])
  | (p, blink) :: rest =>
    if publishOk p.id then
      let db1 := updatePostStatus db p.id
      let errs :=
        if blink.isSome && !commentOk p.id then
          ["Failed LinkedIn comment on post " ++ natToDecimalString p.id]
        else []
      match LinkedInClient.publishLoop publishOk commentOk db1 rest with
      | (db2, es) => (db2, errs ++ es)
    else
      match LinkedInClient.publishLoop publishOk commentOk db rest with
      | (db2, es) =>
        (db2, ("Failed to publish LinkedIn post ID " ++ natToDecimalString p.id) :: es)

/-- `LinkedInClient.publishScheduledPosts`. -/
def LinkedInClient.publishScheduledPosts (publishOk commentOk : Nat → Bool)
    (today : Nat) (db : DB) : DB × List String :=
  LinkedInClient.publishLoop publishOk commentOk db
    (fetchScheduledPostsBase "LinkedIn" today db)

/- ------------------------------------------------------------------
   X outreach pipeline (quarterHourly)
   ------------------------------------------------------------------ -/

/-- A row returned by the chunk query of `quarterHourly`. -/
structure BookRow where
  title : String
  link : String
  author : String
deriving DecidableEq, Repr

/-- A tweet as consumed by the pipeline (after `searchPosts` enrichment). -/
structure Tweet where
  id : String
  author_id : String
  username : Option String
  like_count : Nat
  followers : Nat
deriving DecidableEq, Repr

/-- A tweet tagged with the originating book metadata. -/
structure EnrichedTweet where
  tweet : Tweet
  book_title : String
  book_author : String
  book_link : String
deriving DecidableEq, Repr

/-- External-world oracle for the X pipeline: the clock, the wall-clock hour,
the search API response per (title, author), and whether a reply API call for
a given tweet id succeeds. -/
structure XEnv where
  now : Nat
  hour : Nat
  search : String → String → Except String (List Tweet)
  replyOk : String → Bool

/-- `username ? /\d{4,}/.test(username) : true` — a missing or empty username
is suspicious (the empty string is falsy in JS). -/
def isSuspiciousUsername (u : Option String) : Bool :=
  match u with
  | some s => if s.data.isEmpty then true else hasFourConsecutiveDigits s
  | none => true

/-- `XClient.filterSuspiciousUsernames`. -/
def filterSuspiciousUsernames (tweets : List Tweet) : List Tweet :=
  tweets.filter (fun t => !isSuspiciousUsername t.username)

/-- `SELECT COUNT(*) FROM replies WHERE replied_at >= NOW() - INTERVAL '24 hours'`. -/
def repliesLast24 (db : DB) (now : Nat) : Nat :=
  (db.replies.filter (fun r => now ≤ r.replied_at + 24 * 3600)).length

/-- Has this user a reply row within the last 30 days?  (The batched
`removePostsWithKnownUsers` lookup, per user id.) -/
def repliedWithin30Days (db : DB) (now : Nat) (uid : String) : Bool :=
  db.replies.any (fun r => r.user_id == uid && now ≤ r.replied_at + 30 * 24 * 3600)

/-- `XClient.removePostsWithKnownUsers`. -/
def removePostsWithKnownUsers (db : DB) (now : Nat) (allPosts : List EnrichedTweet) :
    List EnrichedTweet :=
  allPosts.filter (fun p => !repliedWithin30Days db now p.tweet.author_id)

/-- Score of a tweet: `like_count + followers`. -/
def tweetScore (t : EnrichedTweet) : Nat :=
  t.tweet.like_count + t.tweet.followers

/-- `XClient.selectTopPosts`: stable sort by score descending, take 10,
project (id, author_id). -/
def selectTopPosts (tweets : List EnrichedTweet) : List (String × String) :=
  ((sortBy (fun a b => Nat.blt (tweetScore b) (tweetScore a)) tweets).take 10).map
    (fun t => (t.tweet.id, t.tweet.author_id))

/-- `XClient.insertReplyRecord`: Postgres
`INSERT ... ON CONFLICT (user_id) DO UPDATE` on the replies table; the new
row's `replied_at` takes the table default `now()`, and on conflict every
other column is overwritten and `replied_at` refreshed. -/
def insertReplyRecord (now : Nat) (db : DB)
    (userId username postId postUrl bookTitle : String) : DB :=
  if db.replies.any (fun r => r.user_id == userId) then
    { db with replies := db.replies.map (fun r =>
        if r.user_id == userId then
          { r with replied_at := now, username := username, post_id := postId,
                   post_url := postUrl, book_title := bookTitle }
        else r) }
  else
    { db with replies := db.replies ++
        [{ user_id := userId, username := username, post_id := postId,
           post_url := postUrl, book_title := bookTitle, replied_at := now }] }

/-- `XClient.replyToPosts` (first revision): reply to each post via the API;
on success upsert a reply row (username falls back to "UnknownUser"); an API
failure is thrown, aborting the rest of this call while keeping the upserts
already committed.  Returns (success count, store, thrown error). -/
def replyToPostsX (env : XEnv) (db : DB) (title : String) :
    List (String × String) → Nat × DB × Option String
  | [] => (0, db, none)
  | (pid, aid) :: rest =>
    if env.replyOk pid then
      let db1 := insertReplyRecord env.now db aid "UnknownUser" pid
        ("https://twitter.com/UnknownUser/status/" ++ pid) title
      match replyToPostsX env db1 title rest with
      | (n, db2, e) => (n + 1, db2, e)
    else
      (0, db, some ("reply failed for tweet " ++ pid))

/-- Step 1 of `replyToAllBookMentions`: for each book search the API, filter
suspicious usernames, and attach the book metadata; per-book search failures
are collected as error strings and the loop continues. -/
def gatherBookMentions (env : XEnv) : List BookRow → List EnrichedTweet × List String
  | [] => ([], [])
  | b :: rest =>
    match gatherBookMentions env rest with
    | (ps, es) =>
      match env.search b.title b.author with
      | .ok posts =>
        (((filterSuspiciousUsernames posts).map (fun t =>
          { tweet := t, book_title := b.title, book_author := b.author,
            book_link := b.link })) ++ ps, es)
      | .error msg =>
        (ps, ("Error searching \"" ++ b.title ++ "\" by \"" ++ b.author ++ "\": " ++ msg) :: es)

/-- Step 4 of `replyToAllBookMentions`: reply to each selected top post (each
through a singleton `replyToPosts` call); per-post failures are caught,
logged into the error list, and the loop continues. -/
def replyToTopPosts (env : XEnv) (db : DB) (postsFromNewUsers : List EnrichedTweet) :
    List (String × String) → Nat × DB × List String
  | [] => (0, db, [])
  | top :: rest =>
    match postsFromNewUsers.find? (fun p => p.tweet.id == top.1) with
    | none => replyToTopPosts env db postsFromNewUsers rest
    | some postData =>
      match replyToPostsX env db postData.book_title
          [(postData.tweet.id, postData.tweet.author_id)] with
      | (n, db1, none) =>
        match replyToTopPosts env db1 postsFromNewUsers rest with
        | (m, db2, es) => (n + m, db2, es)
      | (_, db1, some msg) =>
        match replyToTopPosts env db1 postsFromNewUsers rest with
        | (m, db2, es) => (m, db2, ("Error replying to tweet: " ++ msg) :: es)

/-- Partial summary returned by `replyToAllBookMentions`. -/
structure MentionRunResult where
  repliesMade : Nat
  booksProcessed : Nat
  errors : List String
deriving DecidableEq, Repr

/-- `XClient.replyToAllBookMentions` (first revision): gather mentions, drop
known users (30-day cooldown), select the top 10 by score, reply to each. -/
def replyToAllBookMentions (env : XEnv) (db : DB) (books : List BookRow) :
    MentionRunResult × DB :=
  let booksProcessed := books.length
  match gatherBookMentions env books with
  | (allPosts, errs1) =>
    if allPosts.isEmpty then
      ({ repliesMade := 0, booksProcessed := booksProcessed, errors := errs1 }, db)
    else
      let postsFromNewUsers := removePostsWithKnownUsers db env.now allPosts
      let topPosts := selectTopPosts postsFromNewUsers
      match replyToTopPosts env db postsFromNewUsers topPosts with
      | (n, db1, errs2) =>
        ({ repliesMade := n, booksProcessed := booksProcessed,
           errors := errs1 ++ errs2 }, db1)

/-- `XClient.getCurrentBookSearchHour`: read the `book_search_hour` setting;
when absent, insert `'-1'` and return `-1`.  `none` models a `NaN` parse. -/
def getCurrentBookSearchHour (db : DB) : Option Int × DB :=
  match getSystemSetting db "book_search_hour" with
  | none => (some (-1), setSystemSetting db "book_search_hour" "-1")
  | some v => (parseIntJS v, db)

/-- `XClient.setCurrentBookSearchHour`. -/
def setCurrentBookSearchHour (db : DB) (hour : Int) : DB :=
  setSystemSetting db "book_search_hour" (intToDecimalString hour)

/-- `XClient.getCurrentBookOffset`: read the `book_search_offset` setting;
when absent, insert `'0'` and return `0`. -/
def getCurrentBookOffset (db : DB) : Option Int × DB :=
  match getSystemSetting db "book_search_offset" with
  | none => (some 0, setSystemSetting db "book_search_offset" "0")
  | some v => (parseIntJS v, db)

/-- `XClient.setCurrentBookOffset`. -/
def setCurrentBookOffset (db : DB) (offset : Int) : DB :=
  setSystemSetting db "book_search_offset" (intToDecimalString offset)

/-- The chunk query's row source:
`books JOIN authors ON b.author_id = a.id ORDER BY b.id` (books that join no
author are dropped by the inner join). -/
def bookRowsById (db : DB) : List BookRow :=
  (sortBy (fun b1 b2 => Nat.blt b1.id b2.id) db.books).filterMap (fun b =>
    (db.authors.find? (fun a => a.id == b.author_id)).map (fun a =>
      { title := b.title, link := b.link, author := a.name }))

/-- `Math.min(50, Math.ceil(totalBooks / 4))`. -/
def chunkOf (totalBooks : Nat) : Nat :=
  min 50 ((totalBooks + 3) / 4)

/-- Summary returned by the first-revision `quarterHourly`. -/
structure QuarterHourlySummary where
  repliesInThisRun : Nat
  repliesInLast24 : Nat
  booksProcessed : Nat
  totalBooks : Nat
  errors : List String
deriving DecidableEq, Repr

/-- Instrumentation of a `quarterHourly` run: the (title, author) pairs the
run searched for, and the offset value used by the chunk fetch (when reached). -/
structure QHTrace where
  searchCalls : List (String × String)
  fetchedOffset : Option Int
deriving DecidableEq, Repr

/-- `XClient.quarterHourly` (first revision), with the 24-hour reply cap as a
parameter (90 in this revision, 100 in the later one).  An `Except.error`
models a thrown exception (a non-numeric or negative stored offset makes the
chunk query itself fail). -/
def XClient.quarterHourly (cap : Nat) (env : XEnv) (db : DB) :
    Except String (QuarterHourlySummary × DB × QHTrace) :=
  let last24 := repliesLast24 db env.now
  if cap ≤ last24 then
    .ok ({ repliesInThisRun := 0, repliesInLast24 := last24, booksProcessed := 0,
           totalBooks := 0,
           errors := ["Already made " ++ natToDecimalString last24 ++
             " replies in last 24 hours; skipping new replies."] },
         db, { searchCalls := [], fetchedOffset := none })
  else
    let totalBooks := db.books.length
    if totalBooks == 0 then
      .ok ({ repliesInThisRun := 0, repliesInLast24 := last24, booksProcessed := 0,
             totalBooks := totalBooks,
             errors := ["No books found. Aborting quarterHourly."] },
           db, { searchCalls := [], fetchedOffset := none })
    else
      match getCurrentBookSearchHour db with
      | (lastHour, db1) =>
        let hourChanged := lastHour ≠ some (env.hour : Int)
        let db2 :=
          if hourChanged then
            setCurrentBookSearchHour (setCurrentBookOffset db1 0) (env.hour : Int)
          else db1
        let hourErrs :=
          if hourChanged then
            ["Hour changed from " ++
              (match lastHour with
               | some h => intToDecimalString h
               | none => "NaN") ++
              " to " ++ natToDecimalString env.hour ++ ". Reset offset to 0."]
          else []
        let chunk := chunkOf totalBooks
        match getCurrentBookOffset db2 with
        | (none, _) => .error "invalid book_search_offset"
        | (some offset, db3) =>
          if offset < 0 then .error "negative book_search_offset"
          else
            let books := ((bookRowsById db3).drop offset.toNat).take chunk
            if books.isEmpty then
              .ok ({ repliesInThisRun := 0, repliesInLast24 := last24,
                     booksProcessed := 0, totalBooks := totalBooks,
                     errors := hourErrs ++
                       ["No books returned. Possibly end of DB; reset offset to 0."] },
                   setCurrentBookOffset db3 0,
                   { searchCalls := [], fetchedOffset := some offset })
            else
              match replyToAllBookMentions env db3 books with
              | (runRes, db4) =>
                let newOffset : Int :=
                  if (totalBooks : Int) ≤ offset + (chunk : Int) then 0
                  else offset + (chunk : Int)
                .ok ({ repliesInThisRun := runRes.repliesMade,
                       repliesInLast24 := last24,
                       booksProcessed := runRes.booksProcessed,
                       totalBooks := totalBooks,
                       errors := hourErrs ++ runRes.errors },
                     setCurrentBookOffset db4 newOffset,
                     { searchCalls := books.map (fun b => (b.title, b.author)),
                       fetchedOffset := some offset })

/- ------------------------------------------------------------------
   JSON values and a small JSON parser (JS `JSON.parse`)
   ------------------------------------------------------------------ -/

/-- A JSON number as mantissa times `10 ^ (-exp)`; JS number comparisons on the
scores used here are exact, so this pair with cross-multiplied comparison is a
faithful model. -/
structure JNum where
  mant : Int
  exp : Nat
deriving DecidableEq, Repr

/-- Strict order on JSON numbers by cross multiplication. -/
def jnumLt (a b : JNum) : Bool :=
  decide (a.mant * 10 ^ b.exp < b.mant * 10 ^ a.exp)

/-- Non-strict order on JSON numbers. -/
def jnumLe (a b : JNum) : Bool :=
  !jnumLt b a

/-- `Math.max` of two JSON numbers. -/
def jnumMax (a b : JNum) : JNum :=
  if jnumLt a b then b else a

/-- Parsed JSON values. -/
inductive Json where
  | null : Json
  | bool (b : Bool) : Json
  | num (n : JNum) : Json
  | str (s : String) : Json
  | arr (elems : List Json) : Json
  | obj (members : List (String × Json)) : Json

/-- Skip JSON whitespace. -/
def skipWs : List Char → List Char
  | c :: cs => if c = ' ' ∨ c = '\t' ∨ c = '\n' ∨ c = '\r' then skipWs cs else c :: cs
  | [] => []

/-- Value of one hex digit, if any. -/
def hexVal (c : Char) : Option Nat :=
  if '0' ≤ c ∧ c ≤ '9' then some (c.toNat - 48)
  else if 'a' ≤ c ∧ c ≤ 'f' then some (c.toNat - 87)
  else if 'A' ≤ c ∧ c ≤ 'F' then some (c.toNat - 55)
  else none

/-- Parse the body of a JSON string (after the opening quote), returning the
string and the input following the closing quote. -/
def parseStringBody : List Char → Option (String × List Char)
  | cs => go cs []
where
  go : List Char → List Char → Option (String × List Char)
    | [], _ => none
    | '"' :: rest, acc => some (String.mk acc.reverse, rest)
    | '\\' :: e :: rest, acc =>
      match e with
      | '"' => go rest ('"' :: acc)
      | '\\' => go rest ('\\' :: acc)
      | '/' => go rest ('/' :: acc)
      | 'n' => go rest ('\n' :: acc)
      | 't' => go rest ('\t' :: acc)
      | 'r' => go rest ('\r' :: acc)
      | 'b' => go rest ((Char.ofNat 8) :: acc)
      | 'f' => go rest ((Char.ofNat 12) :: acc)
      | 'u' =>
        match rest with
        | h1 :: h2 :: h3 :: h4 :: rest2 =>
          match hexVal h1, hexVal h2, hexVal h3, hexVal h4 with
          | some a, some b, some c, some d =>
            go rest2 ((Char.ofNat (((a * 16 + b) * 16 + c) * 16 + d)) :: acc)
          | _, _, _, _ => none
        | _ => none
      | _ => none
    | c :: rest, acc => if c = '"' ∨ c = '\\' then none else go rest (c :: acc)

/-- Read a leading digit run, returning its value, its length and the rest. -/
def readDigits : List Char → Nat → Nat → (Nat × Nat × List Char)
  | c :: cs, v, k =>
    if c.isDigit then readDigits cs (v * 10 + (c.toNat - 48)) (k + 1)
    else (v, k, c :: cs)
  | [], v, k => (v, k, [])

/-- Parse a JSON number (integer part, optional fraction, optional exponent). -/
def parseNumber (cs : List Char) : Option (Json × List Char) :=
  let (neg, cs1) := match cs with
    | '-' :: rest => (true, rest)
    | _ => (false, cs)
  match cs1 with
  | c :: _ =>
    if c.isDigit then
      match readDigits cs1 0 0 with
      | (ip, _, cs2) =>
        let (frac, fracLen, cs3) := match cs2 with
          | '.' :: d :: rest =>
            if d.isDigit then readDigits (d :: rest) 0 0 else (0, 0, '.' :: d :: rest)
          | _ => (0, 0, cs2)
        let (expSign, expVal, cs5) := match cs3 with
          | e :: rest =>
            if e = 'e' ∨ e = 'E' then
              match rest with
              | '-' :: d :: r2 => if d.isDigit then
                  match readDigits (d :: r2) 0 0 with
                  | (ev, _, r3) => (true, ev, r3)
                else (false, 0, cs3)
              | '+' :: d :: r2 => if d.isDigit then
                  match readDigits (d :: r2) 0 0 with
                  | (ev, _, r3) => (false, ev, r3)
                else (false, 0, cs3)
              | d :: r2 => if d.isDigit then
                  match readDigits (d :: r2) 0 0 with
                  | (ev, _, r3) => (false, ev, r3)
                else (false, 0, cs3)
              | [] => (false, 0, cs3)
            else (false, 0, cs3)
          | [] => (false, 0, cs3)
        let mantNat := ip * 10 ^ fracLen + frac
        let mant : Int := if neg then -(mantNat : Int) else (mantNat : Int)
        let n : JNum :=
          if expSign then { mant := mant, exp := fracLen + expVal }
          else if fracLen ≤ expVal then { mant := mant * 10 ^ (expVal - fracLen), exp := 0 }
          else { mant := mant, exp := fracLen - expVal }
        some (.num n, cs5)
    else none
  | [] => none

mutual

/-- Parse one JSON value; `fuel` bounds the nesting depth. -/
def parseValue : Nat → List Char → Option (Json × List Char)
  | 0, _ => none
  | fuel + 1, cs =>
    match skipWs cs with
    | 'n' :: 'u' :: 'l' :: 'l' :: rest => some (.null, rest)
    | 't' :: 'r' :: 'u' :: 'e' :: rest => some (.bool true, rest)
    | 'f' :: 'a' :: 'l' :: 's' :: 'e' :: rest => some (.bool false, rest)
    | '"' :: rest => (parseStringBody rest).map (fun sr => (.str sr.1, sr.2))
    | '[' :: rest =>
      (match skipWs rest with
       | ']' :: rest2 => some (.arr [], rest2)
       | other => (parseArrayItems fuel other).map (fun ar => (.arr ar.1, ar.2)))
    | '{' :: rest =>
      (match skipWs rest with
       | '}' :: rest2 => some (.obj [], rest2)
       | other => (parseObjectItems fuel other).map (fun ar => (.obj ar.1, ar.2)))
    | other => parseNumber other

/-- Parse one or more comma-separated array items up to the closing bracket. -/
def parseArrayItems : Nat → List Char → Option (List Json × List Char)
  | 0, _ => none
  | fuel + 1, cs =>
    match parseValue fuel cs with
    | none => none
    | some (v, rest) =>
      match skipWs rest with
      | ',' :: rest2 =>
        (parseArrayItems fuel rest2).map (fun ar => (v :: ar.1, ar.2))
      | ']' :: rest2 => some ([v], rest2)
      | _ => none

/-- Parse one or more comma-separated object members up to the closing brace. -/
def parseObjectItems : Nat → List Char → Option (List (String × Json) × List Char)
  | 0, _ => none
  | fuel + 1, cs =>
    match skipWs cs with
    | '"' :: rest =>
      match parseStringBody rest with
      | none => none
      | some (key, rest2) =>
        match skipWs rest2 with
        | ':' :: rest3 =>
          match parseValue fuel rest3 with
          | none => none
          | some (v, rest4) =>
            match skipWs rest4 with
            | ',' :: rest5 =>
              (parseObjectItems fuel rest5).map (fun ar => ((key, v) :: ar.1, ar.2))
            | '}' :: rest5 => some ([(key, v)], rest5)
            | _ => none
        | _ => none
    | _ => none

end

/-- JS `JSON.parse`: parse one value and require only whitespace to follow;
`none` models the thrown `SyntaxError`. -/
def parseJson (s : String) : Option Json :=
  match parseValue (s.data.length + 1) s.data with
  | some (v, rest) => if (skipWs rest).isEmpty then some v else none
  | none => none

/-- JS property access `parsed.key` on a parsed JSON value: only objects have
keys; a duplicate key keeps the last occurrence, as in `JSON.parse`. -/
def jsonGet : Json → String → Option Json
  | .obj kvs, k => (kvs.reverse.find? (fun kv => kv.1 == k)).map (·.2)
  | _, _ => none

/- ------------------------------------------------------------------
   Reddit suggestion pipeline
   ------------------------------------------------------------------ -/

/-- A Reddit submission as consumed by the pipeline. -/
structure RedditPost where
  id : String
  title : String
  selftext : String
  created_utc : Nat
deriving DecidableEq, Repr

/-- External-world oracle for the Reddit pipeline: the clock, the subreddit's
`getNew` result (newest first), the language-model response per combined
request text, and whether reply/upvote API calls succeed per post id. -/
structure RedditEnv where
  now : Nat
  newPosts : List RedditPost
  model : String → String
  replyOk : String → Bool
  upvoteOk : String → Bool

/-- `RedditClient.getLatestBookRequests`: read the watermark (0 when the
setting is absent), fetch `limit * 5` new posts, keep those created after the
watermark capped at `limit`, and unconditionally advance the watermark to now. -/
def getLatestBookRequests (env : RedditEnv) (db : DB) (limit : Nat) :
    List RedditPost × DB :=
  let lastChecked : Option Int :=
    match getSystemSetting db "last_checked_r_suggestmeabook" with
    | some v => parseIntJS v
    | none => some 0
  let posts := env.newPosts.take (limit * 5)
  let newPosts := (posts.filter (fun p =>
    match lastChecked with
    | some lc => decide (lc < (p.created_utc : Int))
    | none => false)).take limit
  (newPosts, setSystemSetting db "last_checked_r_suggestmeabook"
    (natToDecimalString env.now))

/-- JS truthiness-and-length check `parsed.books && parsed.books.length > 0`
(arrays and strings both carry a `length`). -/
def jsBooksTruthyWithLength (j : Json) : Bool :=
  match jsonGet j "books" with
  | some (.arr xs) => !xs.isEmpty
  | some (.str s) => !s.data.isEmpty
  | _ => false

/-- The `books` member when it is a non-empty array (any other shape makes the
per-candidate `.map` call throw, which the source catches and skips). -/
def jsonBooksNonemptyArr (j : Json) : Option (List Json) :=
  match jsonGet j "books" with
  | some (.arr (b :: bs)) => some (b :: bs)
  | _ => none

/-- `RedditClient.suggestBooksForRequests`: ask the model about each request
and keep the (post, raw suggestion) pairs whose parsed `books` passes the
length guard; parse failures are caught and skipped. -/
def suggestBooksForRequests (env : RedditEnv) : List RedditPost → List (RedditPost × String)
  | [] => []
  | post :: rest =>
    let suggestion := env.model (post.title ++ "\n" ++ post.selftext)
    match parseJson suggestion with
    | some j =>
      if jsBooksTruthyWithLength j then
        (post, suggestion) :: suggestBooksForRequests env rest
      else suggestBooksForRequests env rest
    | none => suggestBooksForRequests env rest

/-- `book.overall_score || 0`: a numeric score is used as is; a missing or
non-numeric score falls back to 0. -/
def overallScoreOf (b : Json) : JNum :=
  match jsonGet b "overall_score" with
  | some (.num q) => q
  | _ => { mant := 0, exp := 0 }

/-- `Math.max(...parsed.books.map(book => book.overall_score || 0))` for a
non-empty list. -/
def maxOverallScore (books : List Json) : JNum :=
  match books with
  | [] => { mant := 0, exp := 0 }
  | b :: bs => bs.foldl (fun acc x => jnumMax acc (overallScoreOf x)) (overallScoreOf b)

/-- The fold of `RedditClient.selectBookRequest`: keep the running highest
max-score and the first post that strictly exceeded every earlier one. -/
def selectGo (highestScore : JNum) (selectedPost : Option RedditPost) :
    List (RedditPost × String) → Option RedditPost
  | [] => selectedPost
  | (post, suggestionStr) :: rest =>
    match parseJson suggestionStr with
    | none => selectGo highestScore selectedPost rest
    | some parsed =>
      match jsonBooksNonemptyArr parsed with
      | none => selectGo highestScore selectedPost rest
      | some books =>
        let maxScore := maxOverallScore books
        if jnumLt highestScore maxScore then selectGo maxScore (some post) rest
        else selectGo highestScore selectedPost rest

/-- `RedditClient.selectBookRequest`: at most one submission, the first whose
best suggested score strictly beats the running maximum (initially 0). -/
def selectBookRequest (suggestions : List (RedditPost × String)) : List RedditPost :=
  match selectGo { mant := 0, exp := 0 } none suggestions with
  | none => []
  | some p => [p]

/-- UTM query string of the suggestion pipeline. -/
def suggestUtmParams : String :=
  "utm_source=reddit.com&utm_medium=referral&utm_campaign=suggestmeabook"

/-- `SELECT b.title, b.link FROM books WHERE LOWER(b.title) = LOWER(t) LIMIT 1`. -/
def lookupBookByTitle (db : DB) (t : String) : Option Book :=
  db.books.find? (fun b => lowerStr b.title == lowerStr t)

/-- Rendering of a JS value inside a template literal (the cases the data can
take; a fractional number is rendered in an exponent form). -/
def jsDisplay : Option Json → String
  | some (.str s) => s
  | some .null => "null"
  | some (.bool true) => "true"
  | some (.bool false) => "false"
  | some (.num n) =>
    if n.exp == 0 then intToDecimalString n.mant
    else intToDecimalString n.mant ++ "e-" ++ natToDecimalString n.exp
  | some (.arr _) => ""
  | some (.obj _) => "[object Object]"
  | none => "undefined"

/-- One loop iteration of `composeReply`: resolve the suggested title against
the books table case-insensitively; skip the suggestion if no row matches,
else produce the `* [title](link-with-utm): hook` bullet line. -/
def composeReplyEntry (db : DB) (s : Json) : Option String :=
  match jsonGet s "title" with
  | some (.str t) =>
    (match lookupBookByTitle db t with
     | none => none
     | some b =>
       let linkWithUtm :=
         if b.link.data.isEmpty then b.link
         else b.link ++ (if strHasChar b.link '?' then "&" else "?") ++ suggestUtmParams
       some ("* [" ++ b.title ++ "](" ++ linkWithUtm ++ "): " ++
         jsDisplay (jsonGet s "hook")))
  | _ => none

/-- `Array.isArray(parsed.books) ? parsed.books : []`. -/
def booksOfJson (parsed : Json) : List Json :=
  match jsonGet parsed "books" with
  | some (.arr xs) => xs
  | _ => []

/-- `composeReply` after `JSON.parse` succeeded: intro line, blank line, one
bullet per store-matched title, blank line, fixed attribution footer; empty
when `books` is not a non-empty array or no title matched. -/
def composeReplyParsed (parsed : Json) (db : DB) : String :=
  let intro := match jsonGet parsed "intro" with
    | some (.str s) => s
    | _ => ""
  let books := booksOfJson parsed
  if books.isEmpty then ""
  else
    let replyLines := books.filterMap (composeReplyEntry db)
    if replyLines.isEmpty then ""
    else
      String.intercalate "\n"
        ([intro, ""] ++ replyLines ++
         ["", "Click any title to download the free e-book from the [Public Domain Library](https://publicdomainlibrary.org/en/?" ++
            suggestUtmParams ++ ")."])

/-- `RedditClient.composeReply`: parse the model output defensively (a parse
failure is caught and yields the empty string), then compose the reply. -/
def composeReply (suggestionsJson : String) (db : DB) : String :=
  match parseJson suggestionsJson with
  | none => ""
  | some parsed => composeReplyParsed parsed db

/-- Instrumentation of a Reddit `quarterHourly` run: the reply calls made
(post id, message) and the upvote calls made. -/
structure RedditTrace where
  replyCalls : List (String × String)
  upvoteCalls : List String
deriving DecidableEq, Repr

/-- `RedditClient.quarterHourly` (suggestion-pipeline revision): fetch the new
requests, collect suggestions, pick the best-scoring request, compose the
reply; only a non-blank composed reply triggers the reply and upvote calls.
An `Except.error` models a thrown reply/upvote API failure (the source has no
try/catch around `postBookSuggestion`). -/
def RedditClient.quarterHourly (env : RedditEnv) (db : DB) :
    Except String String × DB × RedditTrace :=
  match getLatestBookRequests env db 10 with
  | (bookRequests, db1) =>
    let bookSuggestions := suggestBooksForRequests env bookRequests
    match selectBookRequest bookSuggestions with
    | post :: _ =>
      (match (bookSuggestions.find? (fun s => s.1.id == post.id)).map (·.2) with
       | some suggestion =>
         let replyMessage := composeReply suggestion db1
         if !(trimStr replyMessage).data.isEmpty then
           if env.replyOk post.id then
             if env.upvoteOk post.id then
               (.ok "Replied to book suggestion.", db1,
                { replyCalls := [(post.id, replyMessage)], upvoteCalls := [post.id] })
             else
               (.error "upvote failed", db1,
                { replyCalls := [(post.id, replyMessage)], upvoteCalls := [post.id] })
           else
             (.error "reply failed", db1,
              { replyCalls := [(post.id, replyMessage)], upvoteCalls := [] })
         else
           (.ok "No suitable book suggestions found.", db1,
            { replyCalls := [], upvoteCalls := [] })
       | none =>
         (.ok "No suitable book suggestions found.", db1,
          { replyCalls := [], upvoteCalls := [] }))
    | [] =>
      (.ok "No suitable book suggestions found.", db1,
       { replyCalls := [], upvoteCalls := [] })

/- ------------------------------------------------------------------
   Specification-side definition for the refinement comparison of the
   quote-selection claim
   ------------------------------------------------------------------ -/

/-- Selection as the specification words it for quote platforms, with counts
restricted to the given platform's posts: first the book with the fewest
platform quote-posts summed over its quotes, then that book's least-posted
quote on the platform, remaining ties broken by highest popularity. -/
def specQuoteSelectOnPlatform (platform : String) (db : DB) : Option Quote :=
  let qCount := fun (q : Quote) =>
    (db.posts.filter (fun p => p.quote_id == some q.id && p.platform == platform)).length
  let booksWQ := db.books.filter (fun b =>
    !(quotesOf db b).isEmpty && db.authors.any (fun a => a.id == b.author_id))
  match selectFirstMin (fun x y => Nat.blt x.2 y.2)
      (booksWQ.map (fun b => (b, ((quotesOf db b).map qCount).sum))) with
  | none => none
  | some bc =>
    let minc := ((((quotesOf db bc.1).map qCount)).min?).getD 0
    selectFirstMin (fun q1 q2 => decide (q2.popularity < q1.popularity))
      ((quotesOf db bc.1).filter (fun q => qCount q == minc))

/- ------------------------------------------------------------------
   Derived observation functions used by the theorem statements
   ------------------------------------------------------------------ -/

/-- Number of posts scheduled for tomorrow whose platform column satisfies the
guard predicate (the quantity the idempotence property talks about). -/
def countScheduledTomorrow (db : DB) (guardMatch : String → Bool) (today : Nat) : Nat :=
  (db.posts.filter (fun p =>
    p.status == "scheduled" && guardMatch p.platform && p.published_date == today + 1)).length

/-- Number of reply rows for a user id. -/
def countRepliesFor (db : DB) (uid : String) : Nat :=
  (db.replies.filter (fun r => r.user_id == uid)).length

/-- The (post, best score) pairs of the candidates whose suggestion parses to
a non-empty books array — the candidates `selectBookRequest` can consider. -/
def scoredCandidates : List (RedditPost × String) → List (RedditPost × JNum)
  | [] => []
  | (post, s) :: rest =>
    match parseJson s with
    | none => scoredCandidates rest
    | some j =>
      match jsonBooksNonemptyArr j with
      | none => scoredCandidates rest
      | some books => (post, maxOverallScore books) :: scoredCandidates rest

/- ------------------------------------------------------------------
   Helper lemmas about the system-settings store
   ------------------------------------------------------------------ -/

theorem find?_update_same (l : List (String × String)) (k v : String)
    (h : l.any (fun kv => kv.1 == k) = true) :
    (l.map (fun kv => if kv.1 == k then (k, v) else kv)).find?
      (fun kv => kv.1 == k) = some (k, v) := by
  induction l with
  | nil => simp at h
  | cons hd tl ih =>
    simp only [List.any_cons, Bool.or_eq_true] at h
    rw [List.map_cons]
    by_cases hh : (hd.1 == k) = true
    · rw [if_pos hh]
      rw [List.find?_cons_of_pos _ (by simp)]
    · have hh' : (hd.1 == k) = false := by
        cases hx : hd.1 == k with
        | true => exact absurd hx hh
        | false => rfl
      have htl : tl.any (fun kv => kv.1 == k) = true := by
        rcases h with h | h
        · exact absurd h hh
        · exact h
      rw [if_neg hh]
      rw [List.find?_cons_of_neg _ (by simp [hh'])]
      exact ih htl

theorem find?_append_new (l : List (String × String)) (k v : String)
    (h : l.any (fun kv => kv.1 == k) = false) :
    (l ++ [(k, v)]).find? (fun kv => kv.1 == k) = some (k, v) := by
  induction l with
  | nil => simp [List.find?]
  | cons hd tl ih =>
    simp only [List.any_cons, Bool.or_eq_false_iff] at h
    rw [List.cons_append, List.find?_cons_of_neg _ (by simp [h.1])]
    exact ih h.2

theorem getSystemSetting_set_same (db : DB) (k v : String) :
    getSystemSetting (setSystemSetting db k v) k = some v := by
  unfold getSystemSetting setSystemSetting
  split
  · rename_i hcond
    rw [find?_update_same db.settings k v hcond]
    rfl
  · rename_i hcond
    have hx : db.settings.any (fun kv => kv.1 == k) = false := by
      cases hy : db.settings.any (fun kv => kv.1 == k) with
      | true => exact absurd hy hcond
      | false => rfl
    rw [find?_append_new db.settings k v hx]
    rfl

theorem find?_update_other (l : List (String × String)) (k v k2 : String)
    (hne : k ≠ k2) :
    (l.map (fun kv => if kv.1 == k then (k, v) else kv)).find?
      (fun kv => kv.1 == k2) = l.find? (fun kv => kv.1 == k2) := by
  induction l with
  | nil => rfl
  | cons hd tl ih =>
    rw [List.map_cons]
    by_cases hh : (hd.1 == k) = true
    · have h1 : hd.1 = k := by simpa using hh
      have h2 : (hd.1 == k2) = false := by
        rw [h1]; exact beq_eq_false_iff_ne.mpr hne
      have h3 : (k == k2) = false := beq_eq_false_iff_ne.mpr hne
      rw [if_pos hh]
      rw [List.find?_cons_of_neg _ (by simp [h3]), List.find?_cons_of_neg _ (by simp [h2])]
      exact ih
    · rw [if_neg hh]
      cases hfind : (hd.1 == k2) with
      | true =>
        rw [List.find?_cons_of_pos _ (by simp [hfind]),
          List.find?_cons_of_pos _ (by simp [hfind])]
      | false =>
        rw [List.find?_cons_of_neg _ (by simp [hfind]),
          List.find?_cons_of_neg _ (by simp [hfind])]
        exact ih

theorem getSystemSetting_set_other (db : DB) (k v k2 : String) (hne : k ≠ k2) :
    getSystemSetting (setSystemSetting db k v) k2 = getSystemSetting db k2 := by
  unfold getSystemSetting setSystemSetting
  split
  · rw [find?_update_other db.settings k v k2 hne]
  · rw [List.find?_append]
    have hnone : ([(k, v)].find? (fun kv => kv.1 == k2)) = none := by
      rw [List.find?_cons_of_neg _ (by simp [beq_eq_false_iff_ne.mpr hne])]
      rfl
    rw [hnone]
    simp

/- ------------------------------------------------------------------
   The outreach reply phase never touches the settings table
   ------------------------------------------------------------------ -/

theorem insertReplyRecord_settings (now : Nat) (db : DB)
    (u un pid url t : String) :
    (insertReplyRecord now db u un pid url t).settings = db.settings := by
  unfold insertReplyRecord
  split <;> rfl

theorem replyToPostsX_settings (env : XEnv) (title : String) :
    ∀ (ps : List (String × String)) (db : DB),
      (replyToPostsX env db title ps).2.1.settings = db.settings := by
  intro ps
  induction ps with
  | nil => intro db; rfl
  | cons hd tl ih =>
    intro db
    unfold replyToPostsX
    by_cases h : env.replyOk hd.1 = true
    · simp only [h, if_pos]
      have hrec := ih (insertReplyRecord env.now db hd.2 "UnknownUser" hd.1
        ("https://twitter.com/UnknownUser/status/" ++ hd.1) title)
      rw [insertReplyRecord_settings] at hrec
      cases heq : replyToPostsX env
          (insertReplyRecord env.now db hd.2 "UnknownUser" hd.1
            ("https://twitter.com/UnknownUser/status/" ++ hd.1) title) title tl with
      | mk n rest =>
        rw [heq] at hrec
        exact hrec
    · have h' : env.replyOk hd.1 = false := by
        cases hx : env.replyOk hd.1 with
        | true => exact absurd hx h
        | false => rfl
      simp [h']

theorem replyToTopPosts_settings (env : XEnv) (pool : List EnrichedTweet) :
    ∀ (tops : List (String × String)) (db : DB),
      (replyToTopPosts env db pool tops).2.1.settings = db.settings := by
  intro tops
  induction tops with
  | nil => intro db; rfl
  | cons hd tl ih =>
    intro db
    unfold replyToTopPosts
    split
    · exact ih db
    · rename_i x1 postData hfind
      split
      · rename_i x2 n db1 heq
        split
        rename_i x3 m db2 es heq2
        have hps := replyToPostsX_settings env postData.book_title
          [(postData.tweet.id, postData.tweet.author_id)] db
        rw [heq] at hps
        have hrec := ih db1
        rw [heq2] at hrec
        exact hrec.trans hps
      · rename_i x2 n db1 msg heq
        split
        rename_i x3 m db2 es heq2
        have hps := replyToPostsX_settings env postData.book_title
          [(postData.tweet.id, postData.tweet.author_id)] db
        rw [heq] at hps
        have hrec := ih db1
        rw [heq2] at hrec
        exact hrec.trans hps

theorem replyToAllBookMentions_settings (env : XEnv) (db : DB) (books : List BookRow) :
    (replyToAllBookMentions env db books).2.settings = db.settings := by
  unfold replyToAllBookMentions
  split
  rename_i x1 allPosts errs1 hg
  split
  · rfl
  · dsimp only
    exact replyToTopPosts_settings env (removePostsWithKnownUsers db env.now allPosts)
      (selectTopPosts (removePostsWithKnownUsers db env.now allPosts)) db

/- ------------------------------------------------------------------
   Claim C6: the 24-hour reply cap short-circuits quarterHourly
   ------------------------------------------------------------------ -/

/-- C6: when the count of reply rows with `replied_at` in the last 24 hours
reaches the configured cap (90 or 100 depending on the client revision, here a
parameter), `quarterHourly` returns immediately with `repliesInThisRun = 0`
and a descriptive note, makes no search calls, and leaves the store — in
particular the `book_search_offset` and `book_search_hour` settings —
unchanged. -/
theorem quarterHourly_cap_short_circuit (cap : Nat) (env : XEnv) (db : DB)
    (h : cap ≤ repliesLast24 db env.now) :
    XClient.quarterHourly cap env db =
      .ok ({ repliesInThisRun := 0, repliesInLast24 := repliesLast24 db env.now,
             booksProcessed := 0, totalBooks := 0,
             errors := ["Already made " ++ natToDecimalString (repliesLast24 db env.now) ++
               " replies in last 24 hours; skipping new replies."] },
           db, { searchCalls := [], fetchedOffset := none }) := by
  unfold XClient.quarterHourly
  rw [if_pos h]

/-- Oracle for the cap witness: 90 reply rows stamped at the current instant. -/
def capWitnessEnv : XEnv :=
  { now := 1000000, hour := 9, search := fun _ _ => .ok [], replyOk := fun _ => true }

/-- Store for the cap witness. -/
def capWitnessDB : DB :=
  { authors := [], books := [], quotes := [], posts := [],
    replies := (List.range 90).map (fun i =>
      { user_id := natToDecimalString i, username := "u", post_id := "p",
        post_url := "l", book_title := "t", replied_at := 1000000 }),
    settings := [("book_search_hour", "9"), ("book_search_offset", "0")],
    nextPostId := 1 }

set_option maxRecDepth 10000 in
theorem quarterHourly_cap_short_circuit_witness :
    90 ≤ repliesLast24 capWitnessDB capWitnessEnv.now ∧
    XClient.quarterHourly 90 capWitnessEnv capWitnessDB =
      .ok ({ repliesInThisRun := 0,
             repliesInLast24 := repliesLast24 capWitnessDB capWitnessEnv.now,
             booksProcessed := 0, totalBooks := 0,
             errors := ["Already made " ++
               natToDecimalString (repliesLast24 capWitnessDB capWitnessEnv.now) ++
               " replies in last 24 hours; skipping new replies."] },
           capWitnessDB, { searchCalls := [], fetchedOffset := none }) :=
  ⟨by decide,
   quarterHourly_cap_short_circuit 90 capWitnessEnv capWitnessDB (by decide)⟩

/- ------------------------------------------------------------------
   Claim C2: idempotent daily scheduling
   ------------------------------------------------------------------ -/

theorem scheduleCore_guard_noop (gm : String → Bool) (today : Nat) (db : DB)
    (item? : Option NewPostSpec) (rIds : Bool)
    (h : existsScheduledTomorrow db gm today = true) :
    scheduleCore gm today db item? rIds = { returnedRows := [], db := db } := by
  unfold scheduleCore
  rw [if_pos h]

theorem existsScheduledTomorrow_of_count_pos (gm : String → Bool) (today : Nat)
    (db : DB) (h : countScheduledTomorrow db gm today ≠ 0) :
    existsScheduledTomorrow db gm today = true := by
  unfold countScheduledTomorrow at h
  unfold existsScheduledTomorrow
  rw [List.any_eq_true]
  cases hf : db.posts.filter (fun p =>
      p.status == "scheduled" && gm p.platform && p.published_date == today + 1) with
  | nil => rw [hf] at h; simp at h
  | cons x xs =>
    have hx : x ∈ db.posts.filter (fun p =>
        p.status == "scheduled" && gm p.platform && p.published_date == today + 1) := by
      rw [hf]; exact List.mem_cons_self x xs
    rcases List.mem_filter.mp hx with ⟨hmem, hpred⟩
    exact ⟨x, hmem, hpred⟩

theorem not_existsScheduledTomorrow_of_count_zero (gm : String → Bool) (today : Nat)
    (db : DB) (h : countScheduledTomorrow db gm today = 0) :
    existsScheduledTomorrow db gm today = false := by
  unfold countScheduledTomorrow at h
  unfold existsScheduledTomorrow
  rw [List.length_eq_zero] at h
  cases hx : db.posts.any (fun p =>
      p.status == "scheduled" && gm p.platform && p.published_date == today + 1) with
  | false => rfl
  | true =>
    rw [List.any_eq_true] at hx
    rcases hx with ⟨p, hmem, hpred⟩
    have : p ∈ db.posts.filter (fun p =>
        p.status == "scheduled" && gm p.platform && p.published_date == today + 1) :=
      List.mem_filter.mpr ⟨hmem, hpred⟩
    rw [h] at this
    simp at this

theorem scheduleCore_insert_count (gm : String → Bool) (today : Nat) (db : DB)
    (it : NewPostSpec) (rIds : Bool)
    (h0 : countScheduledTomorrow db gm today = 0)
    (hpl : gm it.platform = true) :
    countScheduledTomorrow (scheduleCore gm today db (some it) rIds).db gm today = 1 := by
  unfold scheduleCore
  rw [if_neg (by rw [not_existsScheduledTomorrow_of_count_zero gm today db h0]; simp)]
  unfold countScheduledTomorrow at h0 ⊢
  rw [List.length_eq_zero] at h0
  simp only [List.filter_append, h0, List.nil_append]
  rw [List.filter_cons_of_pos]
  · rfl
  · simp [hpl]

/-- C2: for every platform, if a post with status `scheduled`, matching
platform, and published date equal to tomorrow already exists, `schedulePost`
performs no insert and returns the empty list; consequently calling the
scheduler twice the same day leaves exactly one scheduled post for tomorrow,
with the second call returning empty. -/
theorem schedulePost_idempotent (today : Nat) (db : DB) :
    ((existsScheduledTomorrow db (fun pl => likeContains pl "X") today = true →
        XClient.schedulePost today db = { returnedRows := [], db := db })
     ∧ (countScheduledTomorrow db (fun pl => likeContains pl "X") today = 0 →
        selectQuoteToPost db ≠ none →
        countScheduledTomorrow
            (XClient.schedulePost today (XClient.schedulePost today db).db).db
            (fun pl => likeContains pl "X") today = 1
          ∧ (XClient.schedulePost today (XClient.schedulePost today db).db).returnedRows = []
          ∧ (XClient.schedulePost today (XClient.schedulePost today db).db).db =
              (XClient.schedulePost today db).db))
    ∧ ((existsScheduledTomorrow db (fun pl => likeContains pl "/r/") today = true →
        RedditClient.schedulePost today db = { returnedRows := [], db := db })
     ∧ (countScheduledTomorrow db (fun pl => likeContains pl "/r/") today = 0 →
        selectBookToPost db ≠ none →
        countScheduledTomorrow
            (RedditClient.schedulePost today (RedditClient.schedulePost today db).db).db
            (fun pl => likeContains pl "/r/") today = 1
          ∧ (RedditClient.schedulePost today
              (RedditClient.schedulePost today db).db).returnedRows = []))
    ∧ ((existsScheduledTomorrow db (fun pl => likeContains pl "LinkedIn") today = true →
        LinkedInClient.schedulePost today db = { returnedRows := [], db := db })
     ∧ (countScheduledTomorrow db (fun pl => likeContains pl "LinkedIn") today = 0 →
        selectQuoteToPost db ≠ none →
        countScheduledTomorrow
            (LinkedInClient.schedulePost today (LinkedInClient.schedulePost today db).db).db
            (fun pl => likeContains pl "LinkedIn") today = 1
          ∧ (LinkedInClient.schedulePost today
              (LinkedInClient.schedulePost today db).db).returnedRows = []))
    ∧ ((existsScheduledTomorrow db (fun pl => pl == "Facebook") today = true →
        FacebookClient.schedulePost today db = { returnedRows := [], db := db })
     ∧ (countScheduledTomorrow db (fun pl => pl == "Facebook") today = 0 →
        selectBookToPostFacebook db ≠ none →
        countScheduledTomorrow
            (FacebookClient.schedulePost today (FacebookClient.schedulePost today db).db).db
            (fun pl => pl == "Facebook") today = 1
          ∧ (FacebookClient.schedulePost today
              (FacebookClient.schedulePost today db).db).returnedRows = [])) := by
  have main : ∀ (gm : String → Bool) (sel : DB → Option NewPostSpec) (rIds : Bool),
      (∀ it, sel db = some it → gm it.platform = true) →
      countScheduledTomorrow db gm today = 0 → sel db ≠ none →
      countScheduledTomorrow
          (scheduleCore gm today (scheduleCore gm today db (sel db) rIds).db
            (sel (scheduleCore gm today db (sel db) rIds).db) rIds).db gm today = 1
        ∧ (scheduleCore gm today (scheduleCore gm today db (sel db) rIds).db
            (sel (scheduleCore gm today db (sel db) rIds).db) rIds).returnedRows = []
        ∧ (scheduleCore gm today (scheduleCore gm today db (sel db) rIds).db
            (sel (scheduleCore gm today db (sel db) rIds).db) rIds).db =
            (scheduleCore gm today db (sel db) rIds).db := by
    intro gm sel rIds hplat h0 hsel
    cases hs : sel db with
    | none => exact absurd hs hsel
    | some it =>
      have h1 : countScheduledTomorrow (scheduleCore gm today db (some it) rIds).db
          gm today = 1 :=
        scheduleCore_insert_count gm today db it rIds h0 (hplat it hs)
      have hguard : existsScheduledTomorrow (scheduleCore gm today db (some it) rIds).db
          gm today = true :=
        existsScheduledTomorrow_of_count_pos gm today _ (by rw [h1]; omega)
      rw [scheduleCore_guard_noop _ _ _ _ _ hguard]
      exact ⟨h1, rfl, rfl⟩
  refine ⟨⟨fun h => scheduleCore_guard_noop _ _ _ _ _ h, fun h0 hsel => ?_⟩,
          ⟨fun h => scheduleCore_guard_noop _ _ _ _ _ h, fun h0 hsel => ?_⟩,
          ⟨fun h => scheduleCore_guard_noop _ _ _ _ _ h, fun h0 hsel => ?_⟩,
          ⟨fun h => scheduleCore_guard_noop _ _ _ _ _ h, fun h0 hsel => ?_⟩⟩
  · have := main (fun pl => likeContains pl "X")
      (fun d => (selectQuoteToPost d).map (fun item =>
        { book_id := none, quote_id := some item.quote_id, text := xPostText item,
          image_link := some item.book_cover, platform := "X" })) true
      (by intro it hit
          rcases Option.map_eq_some'.mp hit with ⟨q, hq, hform⟩
          rw [← hform]
          rfl)
      h0 (by simpa using hsel)
    exact ⟨this.1, this.2.1, this.2.2⟩
  · have := main (fun pl => likeContains pl "/r/")
      (fun d => (selectBookToPost d).map (fun item =>
        { book_id := some item.book_id, quote_id := none,
          text := item.book_title ++ " by " ++ item.author_name,
          image_link := some item.book_cover, platform := "/r/FreeEBOOKS/" })) false
      (by intro it hit
          rcases Option.map_eq_some'.mp hit with ⟨q, hq, hform⟩
          rw [← hform]
          rfl)
      h0 (by simpa using hsel)
    exact ⟨this.1, this.2.1⟩
  · have := main (fun pl => likeContains pl "LinkedIn")
      (fun d => (selectQuoteToPost d).map (fun item =>
        { book_id := some item.book_id, quote_id := some item.quote_id,
          text := linkedInPostText item,
          image_link := some item.book_cover, platform := "LinkedIn" })) true
      (by intro it hit
          rcases Option.map_eq_some'.mp hit with ⟨q, hq, hform⟩
          rw [← hform]
          rfl)
      h0 (by simpa using hsel)
    exact ⟨this.1, this.2.1⟩
  · have := main (fun pl => pl == "Facebook")
      (fun d => (selectBookToPostFacebook d).map (fun item =>
        { book_id := some item.book_id, quote_id := none,
          text := item.book_title ++ " by " ++ item.author_name,
          image_link := some item.book_cover, platform := "Facebook" })) false
      (by intro it hit
          rcases Option.map_eq_some'.mp hit with ⟨q, hq, hform⟩
          rw [← hform]
          rfl)
      h0 (by simpa using hsel)
    exact ⟨this.1, this.2.1⟩

/-- Store for the scheduling witness: one author, book and quote, no posts. -/
def schedWitnessDB : DB :=
  { authors := [{ id := 1, name := "James Joyce" }],
    books := [{ id := 1, title := "Dubliners", cover := "cover",
                link := "https://x/dubliners", author_id := 1 }],
    quotes := [{ id := 1, quote := "q", popularity := 3, book_id := 1 }],
    posts := [], replies := [], settings := [], nextPostId := 1 }

theorem schedulePost_idempotent_witness :
    countScheduledTomorrow
        (XClient.schedulePost 5 (XClient.schedulePost 5 schedWitnessDB).db).db
        (fun pl => likeContains pl "X") 5 = 1
      ∧ (XClient.schedulePost 5
          (XClient.schedulePost 5 schedWitnessDB).db).returnedRows = [] :=
  ⟨((schedulePost_idempotent 5 schedWitnessDB).1.2 (by decide) (by decide)).1,
   ((schedulePost_idempotent 5 schedWitnessDB).1.2 (by decide) (by decide)).2.1⟩

/- ------------------------------------------------------------------
   Claim C5: the replies upsert keeps one row per user
   ------------------------------------------------------------------ -/

theorem filter_upd_replies (u un pid url t : String) (now : Nat) :
    ∀ (l : List Reply),
      (l.filter (fun r => r.user_id == u)).length ≤ 1 →
      l.any (fun r => r.user_id == u) = true →
      ((l.map (fun r => if r.user_id == u then
          { r with replied_at := now, username := un, post_id := pid,
                   post_url := url, book_title := t }
        else r)).filter (fun r => r.user_id == u)) =
        [{ user_id := u, username := un, post_id := pid, post_url := url,
           book_title := t, replied_at := now }] := by
  intro l
  induction l with
  | nil => intro _ hany; simp at hany
  | cons hd tl ih =>
    intro hcount hany
    by_cases hpred : (hd.user_id == u) = true
    · have hu : hd.user_id = u := by simpa using hpred
      have htl_nil : tl.filter (fun r => r.user_id == u) = [] := by
        rw [List.filter_cons] at hcount
        rw [if_pos hpred] at hcount
        simp only [List.length_cons] at hcount
        rw [← List.length_eq_zero]
        omega
      have htl_all : ∀ x ∈ tl, (x.user_id == u) = false := by
        intro x hx
        cases hxx : (x.user_id == u) with
        | false => rfl
        | true =>
          have : x ∈ tl.filter (fun r => r.user_id == u) :=
            List.mem_filter.mpr ⟨hx, hxx⟩
          rw [htl_nil] at this
          simp at this
      have hrest : ((tl.map (fun r => if r.user_id == u then
          { r with replied_at := now, username := un, post_id := pid,
                   post_url := url, book_title := t }
        else r)).filter (fun r => r.user_id == u)) = [] := by
        rw [List.filter_eq_nil_iff]
        intro y hy
        rcases List.mem_map.mp hy with ⟨x, hx, hxy⟩
        rw [htl_all x hx] at hxy
        simp only [Bool.false_eq_true, if_false] at hxy
        rw [← hxy]
        simp [htl_all x hx]
      rw [List.map_cons, if_pos hpred, List.filter_cons]
      dsimp only
      rw [if_pos hpred, hrest, hu]
    · have hpred' : (hd.user_id == u) = false := by
        cases hx : hd.user_id == u with
        | true => exact absurd hx hpred
        | false => rfl
      have hany' : tl.any (fun r => r.user_id == u) = true := by
        simp only [List.any_cons, hpred', Bool.false_or] at hany
        exact hany
      have hcount' : (tl.filter (fun r => r.user_id == u)).length ≤ 1 := by
        rw [List.filter_cons, if_neg (by simp [hpred'])] at hcount
        exact hcount
      rw [List.map_cons, if_neg hpred, List.filter_cons, if_neg (by simp [hpred'])]
      exact ih hcount' hany'

theorem filter_neg_upd_replies (u un pid url t : String) (now : Nat) :
    ∀ (l : List Reply),
      ((l.map (fun r => if r.user_id == u then
          { r with replied_at := now, username := un, post_id := pid,
                   post_url := url, book_title := t }
        else r)).filter (fun r => !(r.user_id == u))) =
        l.filter (fun r => !(r.user_id == u)) := by
  intro l
  induction l with
  | nil => rfl
  | cons hd tl ih =>
    by_cases hpred : (hd.user_id == u) = true
    · rw [List.map_cons, if_pos hpred, List.filter_cons, List.filter_cons]
      dsimp only
      rw [if_neg (by simp [hpred]), if_neg (by simp [hpred])]
      exact ih
    · have hpred' : (hd.user_id == u) = false := by
        cases hx : hd.user_id == u with
        | true => exact absurd hx hpred
        | false => rfl
      rw [List.map_cons, if_neg hpred, List.filter_cons, List.filter_cons]
      rw [if_pos (by simp [hpred']), if_pos (by simp [hpred'])]
      rw [ih]

theorem upsert_filter (now : Nat) (db : DB) (u un pid url t : String)
    (h : countRepliesFor db u ≤ 1) :
    (insertReplyRecord now db u un pid url t).replies.filter
        (fun r => r.user_id == u) =
      [{ user_id := u, username := un, post_id := pid, post_url := url,
         book_title := t, replied_at := now }] := by
  unfold insertReplyRecord
  split
  · rename_i hany
    exact filter_upd_replies u un pid url t now db.replies h hany
  · rename_i hany
    have hnone : ∀ x ∈ db.replies, (x.user_id == u) = false := by
      intro x hx
      cases hxx : (x.user_id == u) with
      | false => rfl
      | true => exact absurd (List.any_eq_true.mpr ⟨x, hx, hxx⟩) hany
    have hl : db.replies.filter (fun r => r.user_id == u) = [] := by
      rw [List.filter_eq_nil_iff]
      intro x hx
      simp [hnone x hx]
    simp only [List.filter_append, hl, List.nil_append]
    rw [List.filter_cons]
    dsimp only
    rw [if_pos (by simp)]
    rfl

theorem upsert_filter_neg (now : Nat) (db : DB) (u un pid url t : String) :
    (insertReplyRecord now db u un pid url t).replies.filter
        (fun r => !(r.user_id == u)) =
      db.replies.filter (fun r => !(r.user_id == u)) := by
  unfold insertReplyRecord
  split
  · exact filter_neg_upd_replies u un pid url t now db.replies
  · simp only [List.filter_append]
    rw [List.filter_cons]
    dsimp only
    rw [if_neg (by simp)]
    simp

/-- C5: the replies table keeps at most one row per `user_id` — upserting a
reply for a user who already has a row updates it in place (the table does not
grow), the user ends with exactly one row, and a second outreach attempt
leaves exactly one row carrying the most recent attempt's fields, with every
other user's rows untouched. -/
theorem insertReplyRecord_upsert (db : DB) (u : String) (now1 now2 : Nat)
    (un1 pid1 url1 t1 un2 pid2 url2 t2 : String)
    (h : countRepliesFor db u ≤ 1) :
    (db.replies.any (fun r => r.user_id == u) = true →
      (insertReplyRecord now1 db u un1 pid1 url1 t1).replies.length =
        db.replies.length)
    ∧ countRepliesFor (insertReplyRecord now1 db u un1 pid1 url1 t1) u = 1
    ∧ (insertReplyRecord now2 (insertReplyRecord now1 db u un1 pid1 url1 t1)
          u un2 pid2 url2 t2).replies.filter (fun r => r.user_id == u) =
        [{ user_id := u, username := un2, post_id := pid2, post_url := url2,
           book_title := t2, replied_at := now2 }]
    ∧ (insertReplyRecord now2 (insertReplyRecord now1 db u un1 pid1 url1 t1)
          u un2 pid2 url2 t2).replies.filter (fun r => !(r.user_id == u)) =
        db.replies.filter (fun r => !(r.user_id == u)) := by
  refine ⟨?_, ?_, ?_, ?_⟩
  · intro hany
    unfold insertReplyRecord
    rw [if_pos hany]
    exact List.length_map _ _
  · unfold countRepliesFor
    rw [upsert_filter now1 db u un1 pid1 url1 t1 h]
    rfl
  · have h1 : countRepliesFor (insertReplyRecord now1 db u un1 pid1 url1 t1) u ≤ 1 := by
      unfold countRepliesFor
      rw [upsert_filter now1 db u un1 pid1 url1 t1 h]
      simp
    exact upsert_filter now2 _ u un2 pid2 url2 t2 h1
  · rw [upsert_filter_neg, upsert_filter_neg]

/-- Store for the upsert witness: user u1 already has a reply row. -/
def upsertWitnessDB : DB :=
  { authors := [], books := [], quotes := [], posts := [],
    replies := [{ user_id := "u1", username := "old", post_id := "p0",
                  post_url := "l0", book_title := "t0", replied_at := 5 }],
    settings := [], nextPostId := 1 }

theorem insertReplyRecord_upsert_witness :
    countRepliesFor upsertWitnessDB "u1" ≤ 1 ∧
    countRepliesFor (insertReplyRecord 100 upsertWitnessDB "u1" "n1" "p1" "l1" "b1") "u1" = 1 ∧
    (insertReplyRecord 200 (insertReplyRecord 100 upsertWitnessDB "u1" "n1" "p1" "l1" "b1")
        "u1" "n2" "p2" "l2" "b2").replies.filter (fun r => r.user_id == "u1") =
      [{ user_id := "u1", username := "n2", post_id := "p2", post_url := "l2",
         book_title := "b2", replied_at := 200 }] :=
  ⟨by decide,
   (insertReplyRecord_upsert upsertWitnessDB "u1" 100 200
     "n1" "p1" "l1" "b1" "n2" "p2" "l2" "b2" (by decide)).2.1,
   (insertReplyRecord_upsert upsertWitnessDB "u1" 100 200
     "n1" "p1" "l1" "b1" "n2" "p2" "l2" "b2" (by decide)).2.2.1⟩

/- ------------------------------------------------------------------
   Claim C10: an absent book_search_hour forces the hour-changed branch
   ------------------------------------------------------------------ -/

theorem setSystemSetting_books (db : DB) (k v : String) :
    (setSystemSetting db k v).books = db.books := by
  unfold setSystemSetting
  split <;> rfl

theorem getSystemSetting_congr (db1 db2 : DB) (k : String)
    (h : db1.settings = db2.settings) :
    getSystemSetting db1 k = getSystemSetting db2 k := by
  unfold getSystemSetting
  rw [h]

/-- C10: when the `book_search_hour` setting is absent,
`getCurrentBookSearchHour` lazily inserts `'-1'` and returns `-1`; since the
wall-clock hour is a number from 0 to 23 it can never equal `-1`, so the first
`quarterHourly` invocation ever (not blocked by the reply cap or an empty
catalog) takes the hour-changed branch: it fetches the first chunk at offset
0, stores the current hour, and reports the reset note first. -/
theorem quarterHourly_first_run (cap : Nat) (env : XEnv) (db : DB)
    (habs : getSystemSetting db "book_search_hour" = none)
    (hcap : repliesLast24 db env.now < cap)
    (hbooks : db.books.length ≠ 0) :
    getCurrentBookSearchHour db =
      (some (-1), setSystemSetting db "book_search_hour" "-1")
    ∧ ∃ s db2 t, XClient.quarterHourly cap env db = .ok (s, db2, t)
        ∧ t.fetchedOffset = some 0
        ∧ getSystemSetting db2 "book_search_hour" =
            some (intToDecimalString (env.hour : Int))
        ∧ s.errors.head? = some ("Hour changed from " ++ intToDecimalString (-1) ++
            " to " ++ natToDecimalString env.hour ++ ". Reset offset to 0.") := by
  have hget : getCurrentBookSearchHour db =
      (some (-1), setSystemSetting db "book_search_hour" "-1") := by
    unfold getCurrentBookSearchHour
    rw [habs]
  refine ⟨hget, ?_⟩
  unfold XClient.quarterHourly
  rw [if_neg (by omega)]
  rw [if_neg (by simpa using hbooks)]
  rw [hget]
  dsimp only
  have hne : (some (-1) : Option Int) ≠ some ((env.hour : Int)) := by
    intro hcontra
    rw [Option.some_inj] at hcontra
    omega
  rw [if_pos hne, if_pos hne]
  have hoffget : getCurrentBookOffset
      (setCurrentBookSearchHour
        (setCurrentBookOffset (setSystemSetting db "book_search_hour" "-1") 0)
        (env.hour : Int)) =
      (some 0,
       setCurrentBookSearchHour
        (setCurrentBookOffset (setSystemSetting db "book_search_hour" "-1") 0)
        (env.hour : Int)) := by
    unfold getCurrentBookOffset setCurrentBookSearchHour setCurrentBookOffset
    rw [getSystemSetting_set_other _ _ _ _ (by decide)]
    rw [getSystemSetting_set_same]
    dsimp only
    have : parseIntJS (intToDecimalString 0) = some 0 := by decide
    rw [this]
  rw [hoffget]
  dsimp only
  rw [if_neg (by omega)]
  have hhour2 : getSystemSetting
      (setCurrentBookSearchHour
        (setCurrentBookOffset (setSystemSetting db "book_search_hour" "-1") 0)
        (env.hour : Int)) "book_search_hour" =
      some (intToDecimalString (env.hour : Int)) := by
    unfold setCurrentBookSearchHour
    exact getSystemSetting_set_same _ _ _
  split
  · refine ⟨_, _, _, rfl, rfl, ?_, rfl⟩
    unfold setCurrentBookOffset
    rw [getSystemSetting_set_other _ _ _ _ (by decide)]
    exact hhour2
  · refine ⟨_, _, _, rfl, rfl, ?_, rfl⟩
    unfold setCurrentBookOffset
    rw [getSystemSetting_set_other _ _ _ _ (by decide)]
    rw [getSystemSetting_congr _ _ "book_search_hour"
      (replyToAllBookMentions_settings env _ _)]
    exact hhour2

/-- Oracle for the first-run witness. -/
def firstRunEnv : XEnv :=
  { now := 1000000, hour := 9, search := fun _ _ => .ok [], replyOk := fun _ => true }

/-- Store for the first-run witness: one book, no settings at all. -/
def firstRunDB : DB :=
  { authors := [{ id := 1, name := "A" }],
    books := [{ id := 1, title := "t", cover := "c", link := "l", author_id := 1 }],
    quotes := [], posts := [], replies := [], settings := [], nextPostId := 1 }

theorem quarterHourly_first_run_witness :
    getCurrentBookSearchHour firstRunDB =
      (some (-1), setSystemSetting firstRunDB "book_search_hour" "-1")
    ∧ ∃ s db2 t, XClient.quarterHourly 90 firstRunEnv firstRunDB = .ok (s, db2, t)
        ∧ t.fetchedOffset = some 0
        ∧ getSystemSetting db2 "book_search_hour" =
            some (intToDecimalString (firstRunEnv.hour : Int))
        ∧ s.errors.head? = some ("Hour changed from " ++ intToDecimalString (-1) ++
            " to " ++ natToDecimalString firstRunEnv.hour ++ ". Reset offset to 0.") :=
  quarterHourly_first_run 90 firstRunEnv firstRunDB (by decide) (by decide) (by decide)

/- ------------------------------------------------------------------
   Claim C3: chunk size and cursor advance/wraparound
   ------------------------------------------------------------------ -/

/-- Oracle for the wraparound example: quiet searches, fixed hour. -/
def wrapEnv : XEnv :=
  { now := 1000000, hour := 9, search := fun _ _ => .ok [], replyOk := fun _ => true }

/-- 120-book catalog with the hour cursor at the current hour and offset 0. -/
def wrapDB : DB :=
  { authors := [{ id := 1, name := "A" }],
    books := (List.range 120).map (fun i =>
      { id := i + 1, title := "b", cover := "c", link := "l", author_id := 1 }),
    quotes := [], posts := [], replies := [],
    settings := [("book_search_hour", "9"), ("book_search_offset", "0")],
    nextPostId := 1 }

/-- One quarterHourly run at cap 90 under the wraparound oracle, keeping the
store (the error branch cannot occur on this data). -/
def qhStep (db : DB) : DB :=
  match XClient.quarterHourly 90 wrapEnv db with
  | .ok r => r.2.1
  | .error _ => db

set_option maxRecDepth 1000000 in
/-- C3: the chunk size is `min(50, ceil(totalBooks / 4))`, and a run that
fetches a non-empty chunk stores `offset + chunk` as the new offset, wrapping
to 0 exactly when `offset + chunk` reaches `totalBooks`; in particular on a
120-book catalog (chunk 30) four consecutive same-hour runs advance the
stored offset 0 → 30 → 60 → 90 → 0. -/
theorem quarterHourly_offset_advance :
    (∀ (cap : Nat) (env : XEnv) (db : DB) (vh voff : String) (off : Nat),
      repliesLast24 db env.now < cap →
      db.books.length ≠ 0 →
      getSystemSetting db "book_search_hour" = some vh →
      parseIntJS vh = some (env.hour : Int) →
      getSystemSetting db "book_search_offset" = some voff →
      parseIntJS voff = some ((off : Int)) →
      off < (bookRowsById db).length →
      chunkOf db.books.length = min 50 ((db.books.length + 3) / 4)
      ∧ ∃ s db2 t, XClient.quarterHourly cap env db = .ok (s, db2, t)
          ∧ t.fetchedOffset = some ((off : Int))
          ∧ getSystemSetting db2 "book_search_offset" =
              some (intToDecimalString
                (if db.books.length ≤ off + chunkOf db.books.length then 0
                 else ((off + chunkOf db.books.length : Nat) : Int))))
    ∧ chunkOf wrapDB.books.length = 30
    ∧ getSystemSetting (qhStep wrapDB) "book_search_offset" = some "30"
    ∧ getSystemSetting (qhStep (qhStep wrapDB)) "book_search_offset" = some "60"
    ∧ getSystemSetting (qhStep (qhStep (qhStep wrapDB))) "book_search_offset" =
        some "90"
    ∧ getSystemSetting (qhStep (qhStep (qhStep (qhStep wrapDB))))
        "book_search_offset" = some "0" := by
  refine ⟨?_, by decide, by decide, by decide, by decide, by decide⟩
  intro cap env db vh voff off hcap hbooks hhour hhourv hoff hoffv hlt
  refine ⟨rfl, ?_⟩
  unfold XClient.quarterHourly
  rw [if_neg (by omega), if_neg (by simpa using hbooks)]
  have hget : getCurrentBookSearchHour db = (some ((env.hour : Int)), db) := by
    unfold getCurrentBookSearchHour
    rw [hhour]
    dsimp only
    rw [hhourv]
  rw [hget]
  dsimp only
  rw [if_neg (by simp), if_neg (by simp)]
  have hoffget : getCurrentBookOffset db = (some ((off : Int)), db) := by
    unfold getCurrentBookOffset
    rw [hoff]
    dsimp only
    rw [hoffv]
  rw [hoffget]
  dsimp only
  rw [if_neg (by omega)]
  have htoNat : ((off : Int)).toNat = off := Int.toNat_natCast off
  have hchunk_pos : 1 ≤ chunkOf db.books.length := by
    unfold chunkOf
    omega
  have hne : (((bookRowsById db).drop ((off : Int)).toNat).take
      (chunkOf db.books.length)).isEmpty = false := by
    rw [htoNat]
    cases hx : (((bookRowsById db).drop off).take (chunkOf db.books.length)).isEmpty with
    | false => rfl
    | true =>
      rw [List.isEmpty_iff] at hx
      have hlen := congrArg List.length hx
      rw [List.length_take, List.length_drop] at hlen
      simp only [List.length_nil] at hlen
      omega
  split
  · rename_i hbe
    rw [hne] at hbe
    simp at hbe
  · refine ⟨_, _, _, rfl, rfl, ?_⟩
    unfold setCurrentBookOffset
    rw [getSystemSetting_set_same]
    have hval : (if (db.books.length : Int) ≤ (off : Int) + (chunkOf db.books.length : Int)
          then (0 : Int) else (off : Int) + (chunkOf db.books.length : Int)) =
        (if db.books.length ≤ off + chunkOf db.books.length then (0 : Int)
         else ((off + chunkOf db.books.length : Nat) : Int)) := by
      by_cases hc : db.books.length ≤ off + chunkOf db.books.length
      · rw [if_pos (by omega : (db.books.length : Int) ≤
            (off : Int) + (chunkOf db.books.length : Int)), if_pos hc]
      · rw [if_neg (by omega : ¬ (db.books.length : Int) ≤
            (off : Int) + (chunkOf db.books.length : Int)), if_neg hc]
        omega
    rw [hval]

set_option maxRecDepth 1000000 in
theorem quarterHourly_offset_advance_witness :
    chunkOf wrapDB.books.length = min 50 ((wrapDB.books.length + 3) / 4)
    ∧ ∃ s db2 t, XClient.quarterHourly 90 wrapEnv wrapDB = .ok (s, db2, t)
        ∧ t.fetchedOffset = some ((0 : Nat) : Int)
        ∧ getSystemSetting db2 "book_search_offset" =
            some (intToDecimalString
              (if wrapDB.books.length ≤ 0 + chunkOf wrapDB.books.length then 0
               else ((0 + chunkOf wrapDB.books.length : Nat) : Int))) :=
  quarterHourly_offset_advance.1 90 wrapEnv wrapDB "9" "0" 0 (by decide) (by decide)
    (by decide) (by decide) (by decide) (by decide) (by decide)

/- ------------------------------------------------------------------
   Claim C4: per-platform publish failure policy
   ------------------------------------------------------------------ -/

/-- Store for the publish counterexample: two LinkedIn posts scheduled today. -/
def pubCexDB : DB :=
  { authors := [],
    books := [{ id := 1, title := "B", cover := "c", link := "https://x/b",
                author_id := 1 }],
    quotes := [],
    posts :=
      [{ id := 1, book_id := some 1, quote_id := none, text := "t1",
         image_link := none, platform := "LinkedIn", status := "scheduled",
         published_date := 7 },
       { id := 2, book_id := some 1, quote_id := none, text := "t2",
         image_link := none, platform := "LinkedIn", status := "scheduled",
         published_date := 7 }],
    replies := [], settings := [], nextPostId := 3 }

/-- Publish oracle for the counterexample: post 1 fails, post 2 succeeds. -/
def pubCexPublishOk : Nat → Bool := fun i => i == 2

/-- Counterexample to C4 as stated: in LinkedIn's `publishScheduledPosts` the
publish action for the first post of today's batch fails, yet the second post
is still published and marked `published` — the error is not re-thrown and the
batch is not aborted, contradicting the claim's "for every platform". -/
theorem linkedIn_publish_continues_after_failure :
    pubCexPublishOk 1 = false
    ∧ (fetchScheduledPostsBase "LinkedIn" 7 pubCexDB).map (fun x => x.1.id) = [1, 2]
    ∧ ((LinkedInClient.publishScheduledPosts pubCexPublishOk (fun _ => true) 7
        pubCexDB).1.posts.filter (fun p => p.id == 2)).map (·.status) =
        ["published"] := by
  refine ⟨by decide, by decide, by decide⟩

/-- C4 (amended): X's `publishScheduledPosts` logs and re-throws the first
publish failure, aborting the remaining posts of the batch (only the posts
before the failing one get marked published); Reddit's loop re-throws only
errors that escape `submitLinkWithFlair` — a failed submission is swallowed
inside it and the post is still marked published, so the whole batch always
completes when every post has a book link; LinkedIn's loop catches each
per-post failure and continues with the remaining posts. -/
theorem publish_failure_policy :
    (∀ (tweetOk : Nat → Bool) (db : DB) (l1 : List Post) (p : Post) (l2 : List Post),
      (∀ q ∈ l1, tweetOk q.id = true) → tweetOk p.id = false →
      XClient.publishLoop tweetOk db (l1 ++ p :: l2) =
        (l1.foldl (fun d q => updatePostStatus d q.id) db,
         some ("Failed to publish post ID " ++ natToDecimalString p.id)))
    ∧ (∀ (submitOk : Nat → Bool) (db : DB) (l : List (Post × Option String)),
        (∀ x ∈ l, x.2 ≠ none) →
        (RedditClient.publishLoop submitOk db l).2.2 = none
        ∧ (RedditClient.publishLoop submitOk db l).1 =
            l.foldl (fun d x => updatePostStatus d x.1.id) db)
    ∧ (∀ (publishOk commentOk : Nat → Bool) (db : DB)
          (l1 : List (Post × Option String)) (p : Post) (bl : Option String)
          (l2 : List (Post × Option String)),
        publishOk p.id = false →
        (LinkedInClient.publishLoop publishOk commentOk db (l1 ++ (p, bl) :: l2)).1 =
          (LinkedInClient.publishLoop publishOk commentOk db (l1 ++ l2)).1) := by
  refine ⟨?_, ?_, ?_⟩
  · intro tweetOk db l1
    induction l1 generalizing db with
    | nil =>
      intro p l2 _ hfail
      rw [List.nil_append]
      unfold XClient.publishLoop
      rw [if_neg (by simp [hfail])]
      rfl
    | cons q l1 ih =>
      intro p l2 hok hfail
      have hq : tweetOk q.id = true := hok q (List.mem_cons_self q l1)
      rw [List.cons_append]
      unfold XClient.publishLoop
      rw [if_pos hq]
      rw [ih (updatePostStatus db q.id) p l2
        (fun x hx => hok x (List.mem_cons_of_mem q hx)) hfail]
      rfl
  · intro submitOk db l
    induction l generalizing db with
    | nil => intro _; exact ⟨rfl, rfl⟩
    | cons hd tl ih =>
      intro hlinks
      cases hd with
      | mk p bl =>
        cases bl with
        | none => exact absurd rfl (hlinks (p, none) (List.mem_cons_self _ tl))
        | some link =>
          have hrec := ih (updatePostStatus db p.id)
            (fun x hx => hlinks x (List.mem_cons_of_mem _ hx))
          unfold RedditClient.publishLoop
          dsimp only
          cases heq : RedditClient.publishLoop submitOk (updatePostStatus db p.id) tl with
          | mk db2 rest2 =>
            rw [heq] at hrec
            exact ⟨hrec.1, hrec.2⟩
  · intro publishOk commentOk db l1
    induction l1 generalizing db with
    | nil =>
      intro p bl l2 hfail
      rw [List.nil_append, List.nil_append]
      conv_lhs => unfold LinkedInClient.publishLoop
      dsimp only
      rw [if_neg (by simp [hfail])]
    | cons hd l1 ih =>
      intro p bl l2 hfail
      cases hd with
      | mk q bq =>
        rw [List.cons_append, List.cons_append]
        unfold LinkedInClient.publishLoop
        by_cases hq : publishOk q.id = true
        · rw [if_pos hq, if_pos hq]
          dsimp only
          exact ih (updatePostStatus db q.id) p bl l2 hfail
        · rw [if_neg hq, if_neg hq]
          dsimp only
          exact ih db p bl l2 hfail

/-- A scheduled post used by the publish-policy witness. -/
def pubW1 : Post :=
  { id := 1, book_id := none, quote_id := none, text := "a", image_link := none,
    platform := "X", status := "scheduled", published_date := 7 }

/-- A second scheduled post used by the publish-policy witness. -/
def pubW2 : Post :=
  { id := 2, book_id := none, quote_id := none, text := "b", image_link := none,
    platform := "X", status := "scheduled", published_date := 7 }

theorem publish_failure_policy_witness :
    XClient.publishLoop (fun i => i == 2) pubCexDB ([] ++ pubW1 :: [pubW2]) =
      (([] : List Post).foldl (fun d q => updatePostStatus d q.id) pubCexDB,
       some ("Failed to publish post ID " ++ natToDecimalString pubW1.id))
    ∧ ((RedditClient.publishLoop (fun _ => false) pubCexDB
          [(pubW1, some "https://x/b")]).2.2 = none
       ∧ (RedditClient.publishLoop (fun _ => false) pubCexDB
          [(pubW1, some "https://x/b")]).1 =
            [(pubW1, some "https://x/b")].foldl
              (fun d x => updatePostStatus d x.1.id) pubCexDB)
    ∧ (LinkedInClient.publishLoop (fun _ => false) (fun _ => true) pubCexDB
          ([] ++ (pubW1, none) :: [])).1 =
        (LinkedInClient.publishLoop (fun _ => false) (fun _ => true) pubCexDB
          ([] ++ [])).1 :=
  ⟨publish_failure_policy.1 (fun i => i == 2) pubCexDB [] pubW1 [pubW2]
     (by decide) (by decide),
   publish_failure_policy.2.1 (fun _ => false) pubCexDB [(pubW1, some "https://x/b")]
     (by decide),
   publish_failure_policy.2.2 (fun _ => false) (fun _ => true) pubCexDB [] pubW1 none []
     (by decide)⟩

/- ------------------------------------------------------------------
   Claim C7: the composed Reddit reply for scenario B
   ------------------------------------------------------------------ -/

/-- The model output of end-to-end scenario B. -/
def scenarioBJson : String :=
  "\x7b\"intro\":\"Try these:\",\"books\":[\x7b\"title\":\"Dracula\",\"hook\":\"A solicitor visits a count.\",\"overall_score\":4.0\x7d]\x7d"

/-- The store of end-to-end scenario B. -/
def scenarioBDB : DB :=
  { authors := [],
    books := [{ id := 1, title := "Dracula", cover := "c",
                link := "https://x/dracula", author_id := 1 }],
    quotes := [], posts := [], replies := [], settings := [], nextPostId := 1 }

set_option maxRecDepth 10000 in
/-- C7: on scenario B's model output and store, `composeReply` returns exactly
the intro line, a blank line, the UTM-tagged Dracula bullet, a blank line and
the fixed attribution footer joined by newlines; and a suggested entry whose
title has no case-insensitive exact match in the store is silently dropped —
composing with the unmatched entry present equals composing without it. -/
theorem composeReply_scenarioB :
    composeReply scenarioBJson scenarioBDB =
      "Try these:\n\n* [Dracula](https://x/dracula?utm_source=reddit.com&utm_medium=referral&utm_campaign=suggestmeabook): A solicitor visits a count.\n\nClick any title to download the free e-book from the [Public Domain Library](https://publicdomainlibrary.org/en/?utm_source=reddit.com&utm_medium=referral&utm_campaign=suggestmeabook)."
    ∧ (∀ (db : DB) (j j2 : Json) (pre post : List Json) (e : Json) (t : String),
        jsonGet e "title" = some (.str t) →
        lookupBookByTitle db t = none →
        booksOfJson j = pre ++ e :: post →
        booksOfJson j2 = pre ++ post →
        jsonGet j "intro" = jsonGet j2 "intro" →
        composeReplyParsed j db = composeReplyParsed j2 db) := by
  constructor
  · rfl
  · intro db j j2 pre post e t htitle hlook hb1 hb2 hintro
    have he : composeReplyEntry db e = none := by
      unfold composeReplyEntry
      rw [htitle]
      dsimp only
      rw [hlook]
    unfold composeReplyParsed
    rw [hb1, hb2, hintro]
    have hfm : (pre ++ e :: post).filterMap (composeReplyEntry db) =
        (pre ++ post).filterMap (composeReplyEntry db) := by
      rw [List.filterMap_append, List.filterMap_append, List.filterMap_cons, he]
    dsimp only
    rw [if_neg (by simp)]
    rw [hfm]
    cases hpp : (pre ++ post).isEmpty with
    | true =>
      rw [List.isEmpty_iff] at hpp
      rw [hpp]
      rfl
    | false =>
      conv_rhs => rw [if_neg (by simp [hpp])]

/-- Unmatched suggestion entry for the C7 witness. -/
def c7UnmatchedEntry : Json :=
  .obj [("title", .str "Nope"), ("hook", .str "h")]

/-- Parsed model output with the unmatched entry. -/
def c7WithEntry : Json :=
  .obj [("intro", .str "i"), ("books", .arr [c7UnmatchedEntry])]

/-- Parsed model output without the unmatched entry. -/
def c7WithoutEntry : Json :=
  .obj [("intro", .str "i"), ("books", .arr [])]

theorem composeReply_scenarioB_witness :
    composeReplyParsed c7WithEntry scenarioBDB =
      composeReplyParsed c7WithoutEntry scenarioBDB :=
  composeReply_scenarioB.2 scenarioBDB c7WithEntry c7WithoutEntry [] [] c7UnmatchedEntry
    "Nope" rfl rfl rfl rfl rfl

/- ------------------------------------------------------------------
   Claim C8: defensive composeReply and the no-call guarantee
   ------------------------------------------------------------------ -/

theorem composeReplyEntry_none_of_no_match (db : DB) (b : Json)
    (h : ∀ t, jsonGet b "title" = some (.str t) → lookupBookByTitle db t = none) :
    composeReplyEntry db b = none := by
  unfold composeReplyEntry
  cases hx : jsonGet b "title" with
  | none => rfl
  | some v =>
    cases v with
    | str t =>
      dsimp only
      rw [h t hx]
    | null => rfl
    | bool bv => cases bv <;> rfl
    | num n => rfl
    | arr xs => rfl
    | obj kvs => rfl

/-- C8: `composeReply` never throws — on malformed JSON, on a missing or
empty `books` array, and when no suggested title matches a store title it
returns the empty string; and the Reddit `quarterHourly` pipeline performs a
reply call only with a non-blank composed message and performs an upvote call
only after a reply call, so an empty composed reply triggers neither. -/
theorem composeReply_defensive :
    (∀ (s : String) (db : DB), parseJson s = none → composeReply s db = "")
    ∧ (∀ (s : String) (db : DB) (j : Json), parseJson s = some j →
        booksOfJson j = [] → composeReply s db = "")
    ∧ (∀ (s : String) (db : DB) (j : Json), parseJson s = some j →
        (∀ b ∈ booksOfJson j, ∀ t, jsonGet b "title" = some (.str t) →
          lookupBookByTitle db t = none) →
        composeReply s db = "")
    ∧ (∀ (env : RedditEnv) (db : DB),
        (∀ c ∈ (RedditClient.quarterHourly env db).2.2.replyCalls,
          ¬ (trimStr c.2).data.isEmpty = true)
        ∧ ((RedditClient.quarterHourly env db).2.2.upvoteCalls ≠ [] →
           (RedditClient.quarterHourly env db).2.2.replyCalls ≠ [])) := by
  refine ⟨?_, ?_, ?_, ?_⟩
  · intro s db h
    unfold composeReply
    rw [h]
  · intro s db j hp hb
    unfold composeReply
    rw [hp]
    dsimp only
    unfold composeReplyParsed
    dsimp only
    rw [hb]
    rfl
  · intro s db j hp hmatch
    unfold composeReply
    rw [hp]
    dsimp only
    unfold composeReplyParsed
    dsimp only
    cases hbe : (booksOfJson j).isEmpty with
    | true => rw [if_pos (by simp [hbe])]
    | false =>
      rw [if_neg (by simp [hbe])]
      have hfm : (booksOfJson j).filterMap (composeReplyEntry db) = [] := by
        rw [List.filterMap_eq_nil_iff]
        intro b hbmem
        exact composeReplyEntry_none_of_no_match db b (hmatch b hbmem)
      rw [hfm]
      rfl
  · intro env db
    unfold RedditClient.quarterHourly
    split
    rename_i reqs db1 hreq
    dsimp only
    split
    · rename_i post rest hsel
      split
      · rename_i x suggestion hfind
        split
        · rename_i hmsg
          split
          · split
            · exact ⟨by
                intro c hc
                rw [List.mem_singleton] at hc
                subst hc
                simpa using hmsg, by intro h1 h2; simp at h2⟩
            · exact ⟨by
                intro c hc
                rw [List.mem_singleton] at hc
                subst hc
                simpa using hmsg, by intro h1 h2; simp at h2⟩
          · exact ⟨by
              intro c hc
              rw [List.mem_singleton] at hc
              subst hc
              simpa using hmsg, by intro h1; simp at h1⟩
        · exact ⟨by intro c hc; simp at hc, by intro h1; simp at h1⟩
      · exact ⟨by intro c hc; simp at hc, by intro h1; simp at h1⟩
    · exact ⟨by intro c hc; simp at hc, by intro h1; simp at h1⟩

/-- A model output all of whose suggested titles are absent from the store. -/
def c8NoMatchJson : String :=
  "\x7b\"books\":[\x7b\"title\":\"Nope\"\x7d]\x7d"

/-- Parsed form of `c8NoMatchJson`. -/
def c8NoMatchParsed : Json :=
  .obj [("books", .arr [.obj [("title", .str "Nope")]])]

/-- Reddit oracle for the defensive-compose witness: one fresh request, the
model suggesting Dracula. -/
def c8Env : RedditEnv :=
  { now := 99,
    newPosts := [{ id := "r1", title := "want vampire", selftext := "",
                   created_utc := 10 }],
    model := fun _ => scenarioBJson,
    replyOk := fun _ => true, upvoteOk := fun _ => true }

/-- The message the pipeline replies with in the witness run. -/
def c8ReplyMessage : String :=
  "Try these:\n\n* [Dracula](https://x/dracula?utm_source=reddit.com&utm_medium=referral&utm_campaign=suggestmeabook): A solicitor visits a count.\n\nClick any title to download the free e-book from the [Public Domain Library](https://publicdomainlibrary.org/en/?utm_source=reddit.com&utm_medium=referral&utm_campaign=suggestmeabook)."

set_option maxRecDepth 100000 in
theorem composeReply_defensive_witness :
    composeReply "nope" scenarioBDB = ""
    ∧ composeReply "[]" scenarioBDB = ""
    ∧ composeReply c8NoMatchJson scenarioBDB = ""
    ∧ ¬ (trimStr c8ReplyMessage).data.isEmpty = true :=
  ⟨composeReply_defensive.1 "nope" scenarioBDB rfl,
   composeReply_defensive.2.1 "[]" scenarioBDB (.arr []) rfl rfl,
   composeReply_defensive.2.2.1 c8NoMatchJson scenarioBDB c8NoMatchParsed rfl
     (by
       intro b hb t ht
       rw [show booksOfJson c8NoMatchParsed = [.obj [("title", .str "Nope")]] from rfl,
         List.mem_singleton] at hb
       subst hb
       rw [show jsonGet (Json.obj [("title", .str "Nope")]) "title" =
         some (.str "Nope") from rfl] at ht
       injection ht with h1
       injection h1 with h2
       subst h2
       rfl),
   (composeReply_defensive.2.2.2 c8Env scenarioBDB).1 ("r1", c8ReplyMessage)
     (by decide)⟩

/- ------------------------------------------------------------------
   Claim C9: selectBookRequest picks the first highest-scoring candidate
   ------------------------------------------------------------------ -/

theorem scoredCandidates_cons_skip_parse (post : RedditPost) (s : String)
    (tl : List (RedditPost × String)) (hp : parseJson s = none) :
    scoredCandidates ((post, s) :: tl) = scoredCandidates tl := by
  conv_lhs => unfold scoredCandidates
  rw [hp]

theorem scoredCandidates_cons_skip_books (post : RedditPost) (s : String)
    (tl : List (RedditPost × String)) (j : Json) (hp : parseJson s = some j)
    (hb : jsonBooksNonemptyArr j = none) :
    scoredCandidates ((post, s) :: tl) = scoredCandidates tl := by
  conv_lhs => unfold scoredCandidates
  rw [hp]
  dsimp only
  rw [hb]

theorem scoredCandidates_cons_valid (post : RedditPost) (s : String)
    (tl : List (RedditPost × String)) (j : Json) (books : List Json)
    (hp : parseJson s = some j) (hb : jsonBooksNonemptyArr j = some books) :
    scoredCandidates ((post, s) :: tl) =
      (post, maxOverallScore books) :: scoredCandidates tl := by
  conv_lhs => unfold scoredCandidates
  rw [hp]
  dsimp only
  rw [hb]

theorem selectGo_no_improvement :
    ∀ (l : List (RedditPost × String)) (hi : JNum) (sel : Option RedditPost),
      (∀ y ∈ scoredCandidates l, jnumLt hi y.2 = false) →
      selectGo hi sel l = sel := by
  intro l
  induction l with
  | nil => intro hi sel _; rfl
  | cons hd tl ih =>
    intro hi sel hle
    cases hd with
    | mk post s =>
      unfold selectGo
      cases hp : parseJson s with
      | none =>
        exact ih hi sel (by
          intro y hy
          exact hle y (by rw [scoredCandidates_cons_skip_parse post s tl hp]; exact hy))
      | some j =>
        dsimp only
        cases hb : jsonBooksNonemptyArr j with
        | none =>
          exact ih hi sel (by
            intro y hy
            exact hle y (by
              rw [scoredCandidates_cons_skip_books post s tl j hp hb]; exact hy))
        | some books =>
          dsimp only
          have hhead : jnumLt hi (maxOverallScore books) = false := by
            have := hle (post, maxOverallScore books) (by
              rw [scoredCandidates_cons_valid post s tl j books hp hb]
              exact List.mem_cons_self _ _)
            exact this
          rw [if_neg (by simp [hhead])]
          exact ih hi sel (by
            intro y hy
            exact hle y (by
              rw [scoredCandidates_cons_valid post s tl j books hp hb]
              exact List.mem_cons_of_mem _ hy))

theorem selectGo_finds :
    ∀ (l1 : List (RedditPost × String)) (hi : JNum) (sel : Option RedditPost)
      (p : RedditPost) (s : String) (l2 : List (RedditPost × String))
      (j : Json) (books : List Json),
      parseJson s = some j → jsonBooksNonemptyArr j = some books →
      jnumLt hi (maxOverallScore books) = true →
      (∀ y ∈ scoredCandidates l1, jnumLt y.2 (maxOverallScore books) = true) →
      (∀ y ∈ scoredCandidates l2, jnumLt (maxOverallScore books) y.2 = false) →
      selectGo hi sel (l1 ++ (p, s) :: l2) = some p := by
  intro l1
  induction l1 with
  | nil =>
    intro hi sel p s l2 j books hp hb hup _ hafter
    rw [List.nil_append]
    unfold selectGo
    rw [hp]
    dsimp only
    rw [hb]
    dsimp only
    rw [if_pos hup]
    exact selectGo_no_improvement l2 (maxOverallScore books) (some p) hafter
  | cons hd l1 ih =>
    intro hi sel p s l2 j books hp hb hup hbefore hafter
    cases hd with
    | mk q sq =>
      rw [List.cons_append]
      unfold selectGo
      cases hpq : parseJson sq with
      | none =>
        exact ih hi sel p s l2 j books hp hb hup (by
          intro y hy
          exact hbefore y (by
            rw [scoredCandidates_cons_skip_parse q sq l1 hpq]; exact hy)) hafter
      | some jq =>
        dsimp only
        cases hbq : jsonBooksNonemptyArr jq with
        | none =>
          exact ih hi sel p s l2 j books hp hb hup (by
            intro y hy
            exact hbefore y (by
              rw [scoredCandidates_cons_skip_books q sq l1 jq hpq hbq]; exact hy)) hafter
        | some booksq =>
          dsimp only
          have hq : jnumLt (maxOverallScore booksq) (maxOverallScore books) = true :=
            hbefore (q, maxOverallScore booksq) (by
              rw [scoredCandidates_cons_valid q sq l1 jq booksq hpq hbq]
              exact List.mem_cons_self _ _)
          have hbefore' : ∀ y ∈ scoredCandidates l1,
              jnumLt y.2 (maxOverallScore books) = true := by
            intro y hy
            exact hbefore y (by
              rw [scoredCandidates_cons_valid q sq l1 jq booksq hpq hbq]
              exact List.mem_cons_of_mem _ hy)
          by_cases hcase : jnumLt hi (maxOverallScore booksq) = true
          · rw [if_pos hcase]
            exact ih (maxOverallScore booksq) (some q) p s l2 j books hp hb hq
              hbefore' hafter
          · rw [if_neg hcase]
            exact ih hi sel p s l2 j books hp hb hup hbefore' hafter

/-- C9: `selectBookRequest` returns at most one submission; it returns the
candidate whose best suggested score strictly exceeds 0, every earlier
candidate's best score and at least every later candidate's best score (the
first of the highest-scoring candidates, ties resolving to iteration order);
and it returns the empty list when no candidate parses to a non-empty books
array with a best score above the initial running value 0. -/
theorem selectBookRequest_spec :
    (∀ (sugg : List (RedditPost × String)), (selectBookRequest sugg).length ≤ 1)
    ∧ (∀ (l1 : List (RedditPost × String)) (p : RedditPost) (s : String)
        (l2 : List (RedditPost × String)) (j : Json) (books : List Json),
        parseJson s = some j → jsonBooksNonemptyArr j = some books →
        jnumLt { mant := 0, exp := 0 } (maxOverallScore books) = true →
        (∀ y ∈ scoredCandidates l1, jnumLt y.2 (maxOverallScore books) = true) →
        (∀ y ∈ scoredCandidates l2, jnumLe y.2 (maxOverallScore books) = true) →
        selectBookRequest (l1 ++ (p, s) :: l2) = [p])
    ∧ (∀ (sugg : List (RedditPost × String)),
        (∀ y ∈ scoredCandidates sugg, jnumLe y.2 { mant := 0, exp := 0 } = true) →
        selectBookRequest sugg = []) := by
  refine ⟨?_, ?_, ?_⟩
  · intro sugg
    unfold selectBookRequest
    cases selectGo { mant := 0, exp := 0 } none sugg with
    | none => simp
    | some p => simp
  · intro l1 p s l2 j books hp hb hpos hbefore hafter
    unfold selectBookRequest
    rw [selectGo_finds l1 { mant := 0, exp := 0 } none p s l2 j books hp hb hpos
      hbefore (by
        intro y hy
        have := hafter y hy
        unfold jnumLe at this
        cases hx : jnumLt (maxOverallScore books) y.2 with
        | false => rfl
        | true => rw [hx] at this; simp at this)]
  · intro sugg hall
    unfold selectBookRequest
    rw [selectGo_no_improvement sugg { mant := 0, exp := 0 } none (by
      intro y hy
      have := hall y hy
      unfold jnumLe at this
      cases hx : jnumLt { mant := 0, exp := 0 } y.2 with
      | false => rfl
      | true => rw [hx] at this; simp at this)]

/-- Candidate posts for the selection witness. -/
def c9PostA : RedditPost := { id := "a", title := "ta", selftext := "", created_utc := 1 }

/-- Second candidate post for the selection witness. -/
def c9PostB : RedditPost := { id := "b", title := "tb", selftext := "", created_utc := 2 }

/-- Third candidate post for the selection witness. -/
def c9PostC : RedditPost := { id := "c", title := "tc", selftext := "", created_utc := 3 }

/-- Suggestion with best score 2.0. -/
def c9Low : String := "\x7b\"books\":[\x7b\"overall_score\":2.0\x7d]\x7d"

/-- Suggestion with best score 4.0. -/
def c9High : String := "\x7b\"books\":[\x7b\"overall_score\":4.0\x7d]\x7d"

/-- Suggestion with best score 3.5. -/
def c9Mid : String := "\x7b\"books\":[\x7b\"overall_score\":3.5\x7d]\x7d"

/-- Parsed form of the 4.0 suggestion. -/
def c9HighParsed : Json :=
  .obj [("books", .arr [.obj [("overall_score", .num { mant := 40, exp := 1 })]])]

theorem selectBookRequest_spec_witness :
    selectBookRequest [(c9PostA, c9Low), (c9PostB, c9High), (c9PostC, c9Mid)] =
      [c9PostB] :=
  selectBookRequest_spec.2.1 [(c9PostA, c9Low)] c9PostB c9High [(c9PostC, c9Mid)]
    c9HighParsed [.obj [("overall_score", .num { mant := 40, exp := 1 })]]
    rfl rfl (by decide) (by decide) (by decide)

/- ------------------------------------------------------------------
   Claim C1: what the quote-selection query selects
   ------------------------------------------------------------------ -/

theorem selectFirstMin_go_spec {α : Type} (lt : α → α → Bool)
    (hirr : ∀ a, lt a a = false)
    (htrans : ∀ a b c, lt a b = true → lt b c = true → lt a c = true) :
    ∀ (l : List α) (a : α),
      ∃ m, l.foldl (fun acc e => match acc with
          | none => some e
          | some mm => if lt e mm then some e else acc) (some a) = some m
        ∧ (m = a ∨ m ∈ l)
        ∧ (lt m a = true ∨ m = a)
        ∧ (∀ e ∈ l, lt e m = false) := by
  intro l
  induction l with
  | nil =>
    intro a
    exact ⟨a, rfl, Or.inl rfl, Or.inr rfl, by intro e he; simp at he⟩
  | cons x l ih =>
    intro a
    by_cases hx : lt x a = true
    · rw [List.foldl_cons]
      simp only [hx, if_pos]
      obtain ⟨m, heq, hmem, hma, hmin⟩ := ih x
      refine ⟨m, heq, ?_, ?_, ?_⟩
      · rcases hmem with h | h
        · exact Or.inr (h ▸ List.mem_cons_self x l)
        · exact Or.inr (List.mem_cons_of_mem x h)
      · rcases hma with h | h
        · exact Or.inl (htrans m x a h hx)
        · exact Or.inl (h ▸ hx)
      · intro e he
        rcases List.mem_cons.mp he with rfl | he2
        · rcases hma with h | h
          · cases hxm : lt e m with
            | false => rfl
            | true =>
              have := htrans e m e hxm h
              rw [hirr e] at this
              simp at this
          · rw [h]
            exact hirr e
        · exact hmin e he2
    · rw [List.foldl_cons]
      have hx' : lt x a = false := by
        cases hz : lt x a with
        | true => exact absurd hz hx
        | false => rfl
      simp only [hx', Bool.false_eq_true, if_false]
      obtain ⟨m, heq, hmem, hma, hmin⟩ := ih a
      refine ⟨m, heq, ?_, hma, ?_⟩
      · rcases hmem with h | h
        · exact Or.inl h
        · exact Or.inr (List.mem_cons_of_mem x h)
      · intro e he
        rcases List.mem_cons.mp he with rfl | he2
        · rcases hma with h | h
          · cases hxm : lt e m with
            | false => rfl
            | true =>
              have := htrans e m a hxm h
              rw [hx'] at this
              simp at this
          · rw [h]
            exact hx'
        · exact hmin e he2

theorem selectFirstMin_spec {α : Type} (lt : α → α → Bool)
    (hirr : ∀ a, lt a a = false)
    (htrans : ∀ a b c, lt a b = true → lt b c = true → lt a c = true)
    (l : List α) (hl : l ≠ []) :
    ∃ m, selectFirstMin lt l = some m ∧ m ∈ l ∧ ∀ e ∈ l, lt e m = false := by
  cases l with
  | nil => exact absurd rfl hl
  | cons x xs =>
    obtain ⟨m, heq, hmem, hma, hmin⟩ := selectFirstMin_go_spec lt hirr htrans xs x
    refine ⟨m, ?_, ?_, ?_⟩
    · unfold selectFirstMin
      rw [List.foldl_cons]
      exact heq
    · rcases hmem with h | h
      · exact h ▸ List.mem_cons_self x xs
      · exact List.mem_cons_of_mem x h
    · intro e he
      rcases List.mem_cons.mp he with rfl | he2
      · rcases hma with h | h
        · cases hxm : lt e m with
          | false => rfl
          | true =>
            have := htrans e m e hxm h
            rw [hirr e] at this
            simp at this
        · rw [h]
          exact hirr e
      · exact hmin e he2

theorem rankLt_irrefl (a : RankedQuote) : rankLt a a = false := by
  unfold rankLt
  rw [decide_eq_false_iff_not]
  omega

theorem rankLt_trans (a b c : RankedQuote) (h1 : rankLt a b = true)
    (h2 : rankLt b c = true) : rankLt a c = true := by
  unfold rankLt at h1 h2 ⊢
  rw [decide_eq_true_eq] at h1 h2
  rw [decide_eq_true_eq]
  omega

theorem foldl_min_spec : ∀ (xs : List Nat) (a : Nat),
    (xs.foldl min a = a ∨ xs.foldl min a ∈ xs)
    ∧ xs.foldl min a ≤ a ∧ ∀ x ∈ xs, xs.foldl min a ≤ x := by
  intro xs
  induction xs with
  | nil =>
    intro a
    exact ⟨Or.inl rfl, Nat.le_refl a, by intro x hx; simp at hx⟩
  | cons x xs ih =>
    intro a
    rw [List.foldl_cons]
    obtain ⟨hmem, hle, hall⟩ := ih (min a x)
    refine ⟨?_, ?_, ?_⟩
    · rcases hmem with h | h
      · rcases min_choice a x with h2 | h2
        · exact Or.inl (h.trans h2)
        · exact Or.inr (by rw [h, h2]; exact List.mem_cons_self x xs)
      · exact Or.inr (List.mem_cons_of_mem x h)
    · exact Nat.le_trans hle (Nat.min_le_left a x)
    · intro y hy
      rcases List.mem_cons.mp hy with rfl | hy2
      · exact Nat.le_trans hle (Nat.min_le_right a y)
      · exact hall y hy2

theorem natList_min?_spec (l : List Nat) (hl : l ≠ []) :
    ∃ v, l.min? = some v ∧ v ∈ l ∧ ∀ x ∈ l, v ≤ x := by
  cases l with
  | nil => exact absurd rfl hl
  | cons x xs =>
    obtain ⟨hmem, hle, hall⟩ := foldl_min_spec xs x
    refine ⟨xs.foldl min x, rfl, ?_, ?_⟩
    · rcases hmem with h | h
      · rw [h]
        exact List.mem_cons_self x xs
      · exact List.mem_cons_of_mem x h
    · intro y hy
      rcases List.mem_cons.mp hy with rfl | hy2
      · exact hle
      · exact hall y hy2

theorem minQuotePostCount_spec (db : DB) (b : Book) (hnz : quotesOf db b ≠ []) :
    (∃ q ∈ quotesOf db b, quotePostCount db q = minQuotePostCount db b)
    ∧ ∀ q ∈ quotesOf db b, minQuotePostCount db b ≤ quotePostCount db q := by
  have hmap : (quotesOf db b).map (quotePostCount db) ≠ [] := by
    simp only [ne_eq, List.map_eq_nil_iff]
    exact hnz
  obtain ⟨v, hv, hvm, hvall⟩ := natList_min?_spec _ hmap
  have hminv : minQuotePostCount db b = v := by
    unfold minQuotePostCount
    rw [hv]
    rfl
  constructor
  · rcases List.mem_map.mp hvm with ⟨q, hq, hqv⟩
    exact ⟨q, hq, by rw [hqv, hminv]⟩
  · intro q hq
    rw [hminv]
    exact hvall (quotePostCount db q) (List.mem_map_of_mem _ hq)

theorem mem_finalQuotes_intro (db : DB) (b : Book) (a : Author) (q : Quote)
    (hb : b ∈ db.books)
    (ha : db.authors.find? (fun a0 => a0.id == b.author_id) = some a)
    (hq : q ∈ quotesOf db b)
    (hmin : quotePostCount db q = minQuotePostCount db b) :
    ({ sel := { quote_id := q.id, quote := q.quote, book_id := b.id,
                book_title := b.title, book_cover := b.cover,
                author_name := a.name, popularity := q.popularity },
       book_post_count := bookPostCount db b,
       quote_post_count := quotePostCount db q } : RankedQuote) ∈ finalQuotes db := by
  unfold finalQuotes
  rw [List.mem_flatMap]
  refine ⟨b, hb, ?_⟩
  rw [ha]
  rw [List.mem_filterMap]
  refine ⟨q, hq, ?_⟩
  rw [if_pos (by simp [hmin])]

theorem mem_finalQuotes_elim (db : DB) (m : RankedQuote) (hm : m ∈ finalQuotes db) :
    ∃ b ∈ db.books, ∃ a, db.authors.find? (fun a0 => a0.id == b.author_id) = some a
      ∧ ∃ q ∈ quotesOf db b, quotePostCount db q = minQuotePostCount db b
      ∧ m = { sel := { quote_id := q.id, quote := q.quote, book_id := b.id,
                       book_title := b.title, book_cover := b.cover,
                       author_name := a.name, popularity := q.popularity },
              book_post_count := bookPostCount db b,
              quote_post_count := quotePostCount db q } := by
  unfold finalQuotes at hm
  rw [List.mem_flatMap] at hm
  obtain ⟨b, hb, hmb⟩ := hm
  cases ha : db.authors.find? (fun a0 => a0.id == b.author_id) with
  | none =>
    rw [ha] at hmb
    simp at hmb
  | some a =>
    rw [ha] at hmb
    rw [List.mem_filterMap] at hmb
    obtain ⟨q, hq, hqm⟩ := hmb
    by_cases hcond : (quotePostCount db q == minQuotePostCount db b) = true
    · rw [if_pos hcond] at hqm
      exact ⟨b, hb, a, ha, q, hq, by simpa using hcond,
        (Option.some_inj.mp hqm).symm⟩
    · rw [if_neg hcond] at hqm
      simp at hqm

theorem finalQuotes_ne_nil (db : DB) (hq : db.quotes ≠ [])
    (hqb : ∀ q ∈ db.quotes, ∃ b ∈ db.books, b.id = q.book_id)
    (hba : ∀ b ∈ db.books, ∃ a ∈ db.authors, a.id = b.author_id) :
    finalQuotes db ≠ [] := by
  obtain ⟨q0, hq0⟩ := List.exists_mem_of_ne_nil db.quotes hq
  obtain ⟨b0, hb0, hbid⟩ := hqb q0 hq0
  obtain ⟨a0, ha0, haid⟩ := hba b0 hb0
  have hfind : (db.authors.find? (fun a => a.id == b0.author_id)).isSome := by
    rw [List.find?_isSome]
    exact ⟨a0, ha0, by simp [haid]⟩
  obtain ⟨a1, ha1⟩ := Option.isSome_iff_exists.mp hfind
  have hq0b : q0 ∈ quotesOf db b0 :=
    List.mem_filter.mpr ⟨hq0, by simp [hbid]⟩
  have hnz : quotesOf db b0 ≠ [] := List.ne_nil_of_mem hq0b
  obtain ⟨⟨qm, hqm, hqmc⟩, _⟩ := minQuotePostCount_spec db b0 hnz
  exact List.ne_nil_of_mem (mem_finalQuotes_intro db b0 a1 qm hb0 ha1 hqm hqmc)

/-- C1 (amended): for the quote-posting platforms (X and LinkedIn), when no
post is already scheduled for tomorrow and at least one quote exists in a
referentially intact store, `schedulePost` inserts the quote chosen by the
two-level least-recently-posted ranking computed from quote-posts of ALL
platforms (the selection query carries no platform filter): the chosen quote
belongs to a book with the fewest total quote-posts over its quotes, it is a
least-posted quote within that book, and it has maximal popularity among that
book's least-posted quotes. -/
theorem schedulePost_quote_selection (today : Nat) (db : DB)
    (hgX : existsScheduledTomorrow db (fun pl => likeContains pl "X") today = false)
    (hgL : existsScheduledTomorrow db (fun pl => likeContains pl "LinkedIn") today = false)
    (hq : db.quotes ≠ [])
    (hqb : ∀ q ∈ db.quotes, ∃ b ∈ db.books, b.id = q.book_id)
    (hba : ∀ b ∈ db.books, ∃ a ∈ db.authors, a.id = b.author_id) :
    ∃ (item : QuoteSel) (b : Book) (q : Quote),
      selectQuoteToPost db = some item
      ∧ b ∈ db.books ∧ q ∈ quotesOf db b
      ∧ item.quote_id = q.id ∧ item.book_id = b.id ∧ item.popularity = q.popularity
      ∧ (XClient.schedulePost today db).db.posts = db.posts ++
          [{ id := db.nextPostId, book_id := none,
             quote_id := some item.quote_id, text := xPostText item,
             image_link := some item.book_cover, platform := "X",
             status := "scheduled", published_date := today + 1 }]
      ∧ (LinkedInClient.schedulePost today db).db.posts = db.posts ++
          [{ id := db.nextPostId, book_id := some item.book_id,
             quote_id := some item.quote_id, text := linkedInPostText item,
             image_link := some item.book_cover, platform := "LinkedIn",
             status := "scheduled", published_date := today + 1 }]
      ∧ (∀ b2 ∈ db.books, quotesOf db b2 ≠ [] →
          bookPostCount db b ≤ bookPostCount db b2)
      ∧ quotePostCount db q = minQuotePostCount db b
      ∧ (∀ q2 ∈ quotesOf db b, quotePostCount db q2 = minQuotePostCount db b →
          q2.popularity ≤ q.popularity) := by
  have hne := finalQuotes_ne_nil db hq hqb hba
  obtain ⟨m, hsel, hmem, hmin⟩ :=
    selectFirstMin_spec rankLt rankLt_irrefl rankLt_trans (finalQuotes db) hne
  obtain ⟨b, hb, a, ha, q, hqmem, hqc, hmeq⟩ := mem_finalQuotes_elim db m hmem
  have hselq : selectQuoteToPost db = some m.sel := by
    unfold selectQuoteToPost
    rw [hsel]
    rfl
  refine ⟨m.sel, b, q, hselq, hb, hqmem, ?_, ?_, ?_, ?_, ?_, ?_, ?_, ?_⟩
  · rw [hmeq]
  · rw [hmeq]
  · rw [hmeq]
  · unfold XClient.schedulePost scheduleCore
    simp only [hgX, Bool.false_eq_true, if_false]
    rw [hselq]
    rfl
  · unfold LinkedInClient.schedulePost scheduleCore
    simp only [hgL, Bool.false_eq_true, if_false]
    rw [hselq]
    rfl
  · intro b2 hb2 hnz2
    obtain ⟨a2x, ha2x, ha2id⟩ := hba b2 hb2
    have hfind2 : (db.authors.find? (fun a0 => a0.id == b2.author_id)).isSome := by
      rw [List.find?_isSome]
      exact ⟨a2x, ha2x, by simp [ha2id]⟩
    obtain ⟨a2, ha2⟩ := Option.isSome_iff_exists.mp hfind2
    obtain ⟨⟨q2, hq2, hq2c⟩, _⟩ := minQuotePostCount_spec db b2 hnz2
    have hentry := mem_finalQuotes_intro db b2 a2 q2 hb2 ha2 hq2 hq2c
    have hlt := hmin _ hentry
    rw [hmeq] at hlt
    unfold rankLt at hlt
    rw [decide_eq_false_iff_not] at hlt
    dsimp only at hlt
    omega
  · exact hqc
  · intro q2 hq2 hq2c
    have hentry := mem_finalQuotes_intro db b a q2 hb ha hq2 hq2c
    have hlt := hmin _ hentry
    rw [hmeq] at hlt
    unfold rankLt at hlt
    rw [decide_eq_false_iff_not] at hlt
    dsimp only at hlt
    omega

/-- Store exhibiting the platform-filter divergence: quote 1 (popularity 5)
already has one post, but only on Reddit; quote 2 (popularity 1) has none. -/
def c1CexDB : DB :=
  { authors := [{ id := 1, name := "A" }]
    books := [{ id := 1, title := "B", cover := "c", link := "l", author_id := 1 }]
    quotes := [{ id := 1, quote := "q1", popularity := 5, book_id := 1 },
               { id := 2, quote := "q2", popularity := 1, book_id := 1 }]
    posts := [{ id := 1, book_id := none, quote_id := some 1, text := "t",
                image_link := none, platform := "/r/FreeEBOOKS/",
                status := "published", published_date := 0 }]
    replies := []
    settings := []
    nextPostId := 2 }

/-- C1 counterexample: the selection query counts quote-posts of ALL
platforms. With one Reddit-only post on quote 1, the code selects quote 2
and `XClient.schedulePost` inserts quote 2, whereas a per-platform count
restricted to X (the spec's reading) would pick the more popular quote 1. -/
theorem quote_selection_ignores_platform :
    (selectQuoteToPost c1CexDB).map (fun it => it.quote_id) = some 2
    ∧ (specQuoteSelectOnPlatform "X" c1CexDB).map (fun q => q.id) = some 1
    ∧ ((XClient.schedulePost 10 c1CexDB).db.posts.map
        (fun p => p.quote_id)).getLast? = some (some 2) := by
  decide

/-- Witness for C1: the amended selection theorem instantiated on `c1CexDB`
at day 10, every hypothesis discharged by evaluation. -/
theorem schedulePost_quote_selection_witness :
    existsScheduledTomorrow c1CexDB (fun pl => likeContains pl "X") 10 = false
    ∧ existsScheduledTomorrow c1CexDB (fun pl => likeContains pl "LinkedIn") 10 = false
    ∧ c1CexDB.quotes ≠ []
    ∧ (∀ q ∈ c1CexDB.quotes, ∃ b ∈ c1CexDB.books, b.id = q.book_id)
    ∧ (∀ b ∈ c1CexDB.books, ∃ a ∈ c1CexDB.authors, a.id = b.author_id)
    ∧ (∃ (item : QuoteSel) (b : Book) (q : Quote),
        selectQuoteToPost c1CexDB = some item
        ∧ b ∈ c1CexDB.books ∧ q ∈ quotesOf c1CexDB b
        ∧ item.quote_id = q.id ∧ item.book_id = b.id ∧ item.popularity = q.popularity
        ∧ (XClient.schedulePost 10 c1CexDB).db.posts = c1CexDB.posts ++
            [{ id := c1CexDB.nextPostId, book_id := none,
               quote_id := some item.quote_id, text := xPostText item,
               image_link := some item.book_cover, platform := "X",
               status := "scheduled", published_date := 10 + 1 }]
        ∧ (LinkedInClient.schedulePost 10 c1CexDB).db.posts = c1CexDB.posts ++
            [{ id := c1CexDB.nextPostId, book_id := some item.book_id,
               quote_id := some item.quote_id, text := linkedInPostText item,
               image_link := some item.book_cover, platform := "LinkedIn",
               status := "scheduled", published_date := 10 + 1 }]
        ∧ (∀ b2 ∈ c1CexDB.books, quotesOf c1CexDB b2 ≠ [] →
            bookPostCount c1CexDB b ≤ bookPostCount c1CexDB b2)
        ∧ quotePostCount c1CexDB q = minQuotePostCount c1CexDB b
        ∧ (∀ q2 ∈ quotesOf c1CexDB b,
            quotePostCount c1CexDB q2 = minQuotePostCount c1CexDB b →
            q2.popularity ≤ q.popularity)) :=
  ⟨by decide, by decide, by decide, by decide, by decide,
   schedulePost_quote_selection 10 c1CexDB (by decide) (by decide) (by decide)
     (by decide) (by decide)⟩
